import Mathlib

/-
Verification of the PyGAF groundwater-flow library against its
natural-language specification.

The Python source is shallowly embedded over an arbitrary
`LinearOrderedField α` (the float arithmetic of the source is modelled by
exact field arithmetic; all comparisons in the source are order
comparisons available in any linear order).  External numerical
collaborators imported by the source (numpy.sqrt, numpy.log, numpy.cos,
numpy.sin, scipy.special.expn, scipy.special.k0, numpy.pi) are passed as
explicit function/value parameters, mirroring the `import` statements of
the source.  Python exceptions are modelled by `Except`/`Option` results:
`Except.error` is a raised exception, and for methods that print an error
message and `return` (returning `None`), the early return is
`Except.ok none` or `Option.none`.
-/

namespace PyGAF

/-- failed e holds when the Except value is an error, i.e. the modelled
Python call raised an exception. -/
def failed {ε β : Type _} : Except ε β → Prop
  | .error _ => True
  | .ok _ => False

section Aquifers

variable {α : Type _} [LinearOrderedField α]

/-- pygaf/aquifers.py, class Aq2dConf: fields K, Ss, B, bot (the name
label is presentation-only and omitted). -/
structure Aq2dConf (α : Type _) where
  K : α
  Ss : α
  B : α
  bot : α

/-- Aq2dConf.K setter (aquifers.py lines 77-81): raises unless v > 0. -/
def Aq2dConf.setK (a : Aq2dConf α) (v : α) : Except String (Aq2dConf α) :=
  if ¬ (v > 0) then .error "Hydraulic conductivity (K) must be positive."
  else .ok { a with K := v }

/-- Aq2dConf.Ss setter (aquifers.py lines 92-96): raises unless v > 0. -/
def Aq2dConf.setSs (a : Aq2dConf α) (v : α) : Except String (Aq2dConf α) :=
  if ¬ (v > 0) then .error "Specific storage (Ss) must be positive."
  else .ok { a with Ss := v }

/-- Aq2dConf.B setter (aquifers.py lines 107-111): raises unless v > 0. -/
def Aq2dConf.setB (a : Aq2dConf α) (v : α) : Except String (Aq2dConf α) :=
  if ¬ (v > 0) then .error "Aquifer thickness (B) must be positive."
  else .ok { a with B := v }

/-- Aq2dConf.__init__ (aquifers.py line 62): the parent Aquifer.__init__
assigns K then B then bot through the validating setters, then Ss is
assigned. -/
def Aq2dConf.make (K Ss B bot : α) : Except String (Aq2dConf α) :=
  if ¬ (K > 0) then .error "Hydraulic conductivity (K) must be positive."
  else if ¬ (B > 0) then .error "Aquifer thickness (B) must be positive."
  else if ¬ (Ss > 0) then .error "Specific storage (Ss) must be positive."
  else .ok ⟨K, Ss, B, bot⟩

/-- Aquifer.T property (aquifers.py line 27): K * B. -/
def Aq2dConf.T (a : Aq2dConf α) : α := a.K * a.B

/-- Aquifer.top property (aquifers.py line 32): bot + B. -/
def Aq2dConf.top (a : Aq2dConf α) : α := a.bot + a.B

/-- Aq2dConf.S property (aquifers.py line 116): Ss * B. -/
def Aq2dConf.S (a : Aq2dConf α) : α := a.Ss * a.B

/-- Aq2dConf.D property (aquifers.py line 121): T / S. -/
def Aq2dConf.D (a : Aq2dConf α) : α := a.T / a.S

/-- pygaf/aquifers.py, class Aq2dUnconf: fields K, Sy, B, bot. -/
structure Aq2dUnconf (α : Type _) where
  K : α
  Sy : α
  B : α
  bot : α

/-- Aq2dUnconf.Sy setter (aquifers.py lines 237-243): raises unless
0 < v < 1. -/
def Aq2dUnconf.setSy (a : Aq2dUnconf α) (v : α) : Except String (Aq2dUnconf α) :=
  if ¬ (v > 0 ∧ v < 1) then
    .error "Specific yield (Sy) must be positive and less than 1."
  else .ok { a with Sy := v }

/-- Aq2dUnconf.__init__ (aquifers.py line 207): K, B, bot through the
parent, then Sy. -/
def Aq2dUnconf.make (K Sy B bot : α) : Except String (Aq2dUnconf α) :=
  if ¬ (K > 0) then .error "Hydraulic conductivity (K) must be positive."
  else if ¬ (B > 0) then .error "Aquifer thickness (B) must be positive."
  else if ¬ (Sy > 0 ∧ Sy < 1) then
    .error "Specific yield (Sy) must be positive and less than 1."
  else .ok ⟨K, Sy, B, bot⟩

/-- Aquifer.T property inherited by Aq2dUnconf: K * B. -/
def Aq2dUnconf.T (a : Aq2dUnconf α) : α := a.K * a.B

/-- Aquifer.top property inherited by Aq2dUnconf: bot + B. -/
def Aq2dUnconf.top (a : Aq2dUnconf α) : α := a.bot + a.B

/-- Aq2dUnconf.S property (aquifers.py line 263): Sy. -/
def Aq2dUnconf.S (a : Aq2dUnconf α) : α := a.Sy

/-- Aq2dUnconf.swl property (aquifers.py line 270): bot + B. -/
def Aq2dUnconf.swl (a : Aq2dUnconf α) : α := a.bot + a.B

/-- pygaf/aquifers.py, class Aq1dFiniteConf: fields K, Ss, B, L, bot. -/
structure Aq1dFiniteConf (α : Type _) where
  K : α
  Ss : α
  B : α
  L : α
  bot : α

/-- Aq1dFiniteConf.L setter (aquifers.py lines 423-427): raises unless
v > 0. -/
def Aq1dFiniteConf.setL (a : Aq1dFiniteConf α) (v : α) :
    Except String (Aq1dFiniteConf α) :=
  if ¬ (v > 0) then .error "Aquifer length (L) must be positive."
  else .ok { a with L := v }

/-- Aq1dFiniteConf.__init__ (aquifers.py line 361): K, B, bot through the
parent, then Ss, then L. -/
def Aq1dFiniteConf.make (K Ss B L bot : α) : Except String (Aq1dFiniteConf α) :=
  if ¬ (K > 0) then .error "Hydraulic conductivity (K) must be positive."
  else if ¬ (B > 0) then .error "Aquifer thickness (B) must be positive."
  else if ¬ (Ss > 0) then .error "Specific storage (Ss) must be positive."
  else if ¬ (L > 0) then .error "Aquifer length (L) must be positive."
  else .ok ⟨K, Ss, B, L, bot⟩

/-- Aquifer.T inherited by Aq1dFiniteConf: K * B. -/
def Aq1dFiniteConf.T (a : Aq1dFiniteConf α) : α := a.K * a.B

/-- Aquifer.top inherited by Aq1dFiniteConf: bot + B. -/
def Aq1dFiniteConf.top (a : Aq1dFiniteConf α) : α := a.bot + a.B

/-- Aq1dFiniteConf.S property (aquifers.py line 432): Ss * B. -/
def Aq1dFiniteConf.S (a : Aq1dFiniteConf α) : α := a.Ss * a.B

/-- Aq1dFiniteConf.D property (aquifers.py line 437): T / S. -/
def Aq1dFiniteConf.D (a : Aq1dFiniteConf α) : α := a.T / a.S

/-- pygaf/aquifers.py, class Aq1dFiniteUnconf: fields K, Sy, B, L, bot. -/
structure Aq1dFiniteUnconf (α : Type _) where
  K : α
  Sy : α
  B : α
  L : α
  bot : α

/-- Aq1dFiniteUnconf.__init__ (aquifers.py line 541): K, B, bot through
the parent, then Sy, then L. -/
def Aq1dFiniteUnconf.make (K Sy B L bot : α) :
    Except String (Aq1dFiniteUnconf α) :=
  if ¬ (K > 0) then .error "Hydraulic conductivity (K) must be positive."
  else if ¬ (B > 0) then .error "Aquifer thickness (B) must be positive."
  else if ¬ (Sy > 0 ∧ Sy < 1) then
    .error "Specific yield (Sy) must be positive and less than 1."
  else if ¬ (L > 0) then .error "Aquifer length (L) must be positive."
  else .ok ⟨K, Sy, B, L, bot⟩

/-- Aq1dFiniteUnconf.T property (aquifers.py line 614): K * B. -/
def Aq1dFiniteUnconf.T (a : Aq1dFiniteUnconf α) : α := a.K * a.B

/-- Aquifer.top inherited by Aq1dFiniteUnconf: bot + B. -/
def Aq1dFiniteUnconf.top (a : Aq1dFiniteUnconf α) : α := a.bot + a.B

/-- Aq1dFiniteUnconf.S property (aquifers.py line 619): Sy. -/
def Aq1dFiniteUnconf.S (a : Aq1dFiniteUnconf α) : α := a.Sy

/-- Aq1dFiniteUnconf.swl property (aquifers.py line 626): bot + B. -/
def Aq1dFiniteUnconf.swl (a : Aq1dFiniteUnconf α) : α := a.bot + a.B

/-- pygaf/aquifers.py, class Aq1dSemifiniteConf: fields K, Ss, B, bot
(same parameters and derived quantities as Aq2dConf, lines 701-805). -/
structure Aq1dSemifiniteConf (α : Type _) where
  K : α
  Ss : α
  B : α
  bot : α

/-- Aq1dSemifiniteConf.__init__ (aquifers.py line 729). -/
def Aq1dSemifiniteConf.make (K Ss B bot : α) :
    Except String (Aq1dSemifiniteConf α) :=
  if ¬ (K > 0) then .error "Hydraulic conductivity (K) must be positive."
  else if ¬ (B > 0) then .error "Aquifer thickness (B) must be positive."
  else if ¬ (Ss > 0) then .error "Specific storage (Ss) must be positive."
  else .ok ⟨K, Ss, B, bot⟩

/-- Aquifer.T inherited by Aq1dSemifiniteConf. -/
def Aq1dSemifiniteConf.T (a : Aq1dSemifiniteConf α) : α := a.K * a.B

/-- Aquifer.top inherited by Aq1dSemifiniteConf. -/
def Aq1dSemifiniteConf.top (a : Aq1dSemifiniteConf α) : α := a.bot + a.B

/-- Aq1dSemifiniteConf.S property (aquifers.py line 783): Ss * B. -/
def Aq1dSemifiniteConf.S (a : Aq1dSemifiniteConf α) : α := a.Ss * a.B

/-- Aq1dSemifiniteConf.D property (aquifers.py line 788): T / S. -/
def Aq1dSemifiniteConf.D (a : Aq1dSemifiniteConf α) : α := a.T / a.S

/-- pygaf/aquifers.py, class Aq1dSemifiniteUnconf: fields K, Sy, B, bot
(same parameters and derived quantities as Aq2dUnconf, lines 857-953). -/
structure Aq1dSemifiniteUnconf (α : Type _) where
  K : α
  Sy : α
  B : α
  bot : α

/-- Aq1dSemifiniteUnconf.__init__ (aquifers.py line 885). -/
def Aq1dSemifiniteUnconf.make (K Sy B bot : α) :
    Except String (Aq1dSemifiniteUnconf α) :=
  if ¬ (K > 0) then .error "Hydraulic conductivity (K) must be positive."
  else if ¬ (B > 0) then .error "Aquifer thickness (B) must be positive."
  else if ¬ (Sy > 0 ∧ Sy < 1) then
    .error "Specific yield (Sy) must be positive and less than 1."
  else .ok ⟨K, Sy, B, bot⟩

/-- Aq1dSemifiniteUnconf.T property (aquifers.py line 941): K * B. -/
def Aq1dSemifiniteUnconf.T (a : Aq1dSemifiniteUnconf α) : α := a.K * a.B

/-- Aquifer.top inherited by Aq1dSemifiniteUnconf. -/
def Aq1dSemifiniteUnconf.top (a : Aq1dSemifiniteUnconf α) : α := a.bot + a.B

/-- Aq1dSemifiniteUnconf.S property (aquifers.py line 946): Sy. -/
def Aq1dSemifiniteUnconf.S (a : Aq1dSemifiniteUnconf α) : α := a.Sy

/-- Aq1dSemifiniteUnconf.swl property (aquifers.py line 953): bot + B. -/
def Aq1dSemifiniteUnconf.swl (a : Aq1dSemifiniteUnconf α) : α := a.bot + a.B

end Aquifers

section WellsBasinsBCs

variable {α : Type _} [LinearOrderedField α]

/-- pygaf/wells.py, class Well (also SteadyWell/TransientWell, whose r
and pf setters are textually identical): location, radius, penetration
fraction. -/
structure Well (α : Type _) where
  x : α
  y : α
  r : α
  pf : α

/-- Well.r setter (wells.py lines 29-33): raises unless v > 0. -/
def Well.setR (w : Well α) (v : α) : Except String (Well α) :=
  if ¬ (v > 0) then .error "Well radius must be greater than 0."
  else .ok { w with r := v }

/-- Well.pf setter (wells.py lines 43-49): raises unless 0 < v ≤ 1. -/
def Well.setPf (w : Well α) (v : α) : Except String (Well α) :=
  if ¬ (v > 0 ∧ v ≤ 1) then
    .error "Well penetration must be greater than 0 and less or equal 1."
  else .ok { w with pf := v }

/-- pygaf/basins.py, class RectBasin: center, side lengths, rotation in
degrees. -/
structure RectBasin (α : Type _) where
  cx : α
  cy : α
  lx : α
  ly : α
  rot : α

/-- RectBasin.rot setter (basins.py lines 210-214): raises if
v ≤ -90 or v ≥ 90. -/
def RectBasin.setRot (b : RectBasin α) (v : α) : Except String (RectBasin α) :=
  if v ≤ -90 ∨ v ≥ 90 then
    .error "Rotation angle must be between -90 and 90 deg."
  else .ok { b with rot := v }

/-- pygaf/basins.py, class Basin (parent): center, rot slot, name.  The
parent class has no rot setter, so any value (including a string) can be
stored in rot; the slot is modelled as a sum of a number and a string. -/
structure Basin (α : Type _) where
  cx : α
  cy : α
  rot : α ⊕ String
  name : String

/-- Basin.__init__ (basins.py lines 11-16): plain assignments, no
validation. -/
def Basin.init (cx cy : α) (rot : α ⊕ String) (name : String) : Basin α :=
  ⟨cx, cy, rot, name⟩

/-- pygaf/basins.py, class CircBasin: inherits the Basin slots and adds
the validated diameter. -/
structure CircBasin (α : Type _) where
  cx : α
  cy : α
  rot : α ⊕ String
  diam : α
  name : String

/-- CircBasin.__init__ (basins.py lines 54-59).  The call
super().__init__(cx, cy, name) passes the name argument positionally in
the rot parameter slot of Basin.__init__ (its name parameter takes the
default value and is overwritten afterwards), then sets the validated
diameter and re-assigns name. -/
def CircBasin.make (cx cy diam : α) (name : String) :
    Except String (CircBasin α) :=
  let parent : Basin α := Basin.init cx cy (Sum.inr name) "unnamed"
  if ¬ (diam > 0) then .error "Basin diameter must be greater than 0."
  else .ok ⟨parent.cx, parent.cy, parent.rot, diam, name⟩

/-- pygaf/bcs.py, class SteadyBC: integer type with value fields. -/
structure SteadyBC (α : Type _) where
  type : ℤ
  head : α
  flow : α
  cond : α

/-- SteadyBC.type setter (bcs.py lines 39-43): raises unless
v ∈ [1, 2, 3]. -/
def SteadyBC.setType (bc : SteadyBC α) (v : ℤ) : Except String (SteadyBC α) :=
  if v ∉ ([1, 2, 3] : List ℤ) then
    .error "Boundary condition type must be 1, 2 or 3."
  else .ok { bc with type := v }

end WellsBasinsBCs

section Claim2

variable {α : Type _} [LinearOrderedField α]

/-- C2: every aquifer constructed with valid parameters (K>0, B>0, Ss>0
for confined kinds, 0<Sy<1 for unconfined kinds, L>0 for finite kinds)
satisfies exactly T = K·B, S = Ss·B (confined) or S = Sy (unconfined),
D = T/S (confined kinds, where D is defined), and top = bot + B (and
swl = bot + B for unconfined kinds). -/
theorem aquifer_derived_quantities_exact (K Ss Sy B L bot : α)
    (hK : 0 < K) (hSs : 0 < Ss) (hSy0 : 0 < Sy) (hSy1 : Sy < 1)
    (hB : 0 < B) (hL : 0 < L) :
    (∃ a : Aq2dConf α, Aq2dConf.make K Ss B bot = .ok a ∧
      a.T = K * B ∧ a.S = Ss * B ∧ a.D = a.T / a.S ∧ a.top = bot + B) ∧
    (∃ a : Aq2dUnconf α, Aq2dUnconf.make K Sy B bot = .ok a ∧
      a.T = K * B ∧ a.S = Sy ∧ a.top = bot + B ∧ a.swl = bot + B) ∧
    (∃ a : Aq1dFiniteConf α, Aq1dFiniteConf.make K Ss B L bot = .ok a ∧
      a.T = K * B ∧ a.S = Ss * B ∧ a.D = a.T / a.S ∧ a.top = bot + B) ∧
    (∃ a : Aq1dFiniteUnconf α, Aq1dFiniteUnconf.make K Sy B L bot = .ok a ∧
      a.T = K * B ∧ a.S = Sy ∧ a.top = bot + B ∧ a.swl = bot + B) ∧
    (∃ a : Aq1dSemifiniteConf α, Aq1dSemifiniteConf.make K Ss B bot = .ok a ∧
      a.T = K * B ∧ a.S = Ss * B ∧ a.D = a.T / a.S ∧ a.top = bot + B) ∧
    (∃ a : Aq1dSemifiniteUnconf α,
      Aq1dSemifiniteUnconf.make K Sy B bot = .ok a ∧
      a.T = K * B ∧ a.S = Sy ∧ a.top = bot + B ∧ a.swl = bot + B) := by
  refine ⟨⟨⟨K, Ss, B, bot⟩, ?_⟩, ⟨⟨K, Sy, B, bot⟩, ?_⟩,
    ⟨⟨K, Ss, B, L, bot⟩, ?_⟩, ⟨⟨K, Sy, B, L, bot⟩, ?_⟩,
    ⟨⟨K, Ss, B, bot⟩, ?_⟩, ⟨⟨K, Sy, B, bot⟩, ?_⟩⟩ <;>
    simp [Aq2dConf.make, Aq2dUnconf.make, Aq1dFiniteConf.make,
      Aq1dFiniteUnconf.make, Aq1dSemifiniteConf.make,
      Aq1dSemifiniteUnconf.make, hK, hSs, hSy0, hSy1, hB, hL,
      Aq2dConf.T, Aq2dConf.S, Aq2dConf.D, Aq2dConf.top,
      Aq2dUnconf.T, Aq2dUnconf.S, Aq2dUnconf.top, Aq2dUnconf.swl,
      Aq1dFiniteConf.T, Aq1dFiniteConf.S, Aq1dFiniteConf.D,
      Aq1dFiniteConf.top, Aq1dFiniteUnconf.T, Aq1dFiniteUnconf.S,
      Aq1dFiniteUnconf.top, Aq1dFiniteUnconf.swl,
      Aq1dSemifiniteConf.T, Aq1dSemifiniteConf.S, Aq1dSemifiniteConf.D,
      Aq1dSemifiniteConf.top, Aq1dSemifiniteUnconf.T,
      Aq1dSemifiniteUnconf.S, Aq1dSemifiniteUnconf.top,
      Aq1dSemifiniteUnconf.swl]

/-- C2 witness: the derived-quantity theorem applied at the default
aquifer parameters K=1, Ss=1e-4, Sy=0.1, B=10, L=1000, bot=0. -/
theorem aquifer_derived_quantities_exact_witness :
    (∃ a : Aq2dConf ℚ, Aq2dConf.make 1 (1/10000) 10 0 = .ok a ∧
      a.T = 1 * 10 ∧ a.S = (1/10000) * 10 ∧ a.D = a.T / a.S ∧
      a.top = 0 + 10) ∧
    (∃ a : Aq2dUnconf ℚ, Aq2dUnconf.make 1 (1/10) 10 0 = .ok a ∧
      a.T = 1 * 10 ∧ a.S = 1/10 ∧ a.top = 0 + 10 ∧ a.swl = 0 + 10) ∧
    (∃ a : Aq1dFiniteConf ℚ, Aq1dFiniteConf.make 1 (1/10000) 10 1000 0 = .ok a ∧
      a.T = 1 * 10 ∧ a.S = (1/10000) * 10 ∧ a.D = a.T / a.S ∧
      a.top = 0 + 10) ∧
    (∃ a : Aq1dFiniteUnconf ℚ, Aq1dFiniteUnconf.make 1 (1/10) 10 1000 0 = .ok a ∧
      a.T = 1 * 10 ∧ a.S = 1/10 ∧ a.top = 0 + 10 ∧ a.swl = 0 + 10) ∧
    (∃ a : Aq1dSemifiniteConf ℚ, Aq1dSemifiniteConf.make 1 (1/10000) 10 0 = .ok a ∧
      a.T = 1 * 10 ∧ a.S = (1/10000) * 10 ∧ a.D = a.T / a.S ∧
      a.top = 0 + 10) ∧
    (∃ a : Aq1dSemifiniteUnconf ℚ,
      Aq1dSemifiniteUnconf.make 1 (1/10) 10 0 = .ok a ∧
      a.T = 1 * 10 ∧ a.S = 1/10 ∧ a.top = 0 + 10 ∧ a.swl = 0 + 10) :=
  aquifer_derived_quantities_exact 1 (1/10000) (1/10) 10 1000 0
    (by norm_num) (by norm_num) (by norm_num) (by norm_num)
    (by norm_num) (by norm_num)

end Claim2

section Claim3

variable {α : Type _} [LinearOrderedField α]

/-- C3: every out-of-domain single-parameter value (K ≤ 0, Ss ≤ 0,
Sy ∉ (0,1), B ≤ 0, L ≤ 0, well radius ≤ 0, penetration fraction outside
(0,1], basin rotation ≤ -90 or ≥ 90, boundary-condition type outside
{1,2,3}) makes the assignment (and hence any construction that routes
through the same setters) raise, so the invalid value is never stored. -/
theorem invalid_parameter_assignment_fails
    (a : Aq2dConf α) (u : Aq2dUnconf α) (f : Aq1dFiniteConf α)
    (w : Well α) (rb : RectBasin α) (bc : SteadyBC α) (v : α) (n : ℤ) :
    (v ≤ 0 → failed (a.setK v) ∧ failed (a.setSs v) ∧ failed (a.setB v) ∧
      failed (f.setL v) ∧ failed (w.setR v)) ∧
    (v ≤ 0 ∨ 1 ≤ v → failed (u.setSy v)) ∧
    (v ≤ 0 ∨ 1 < v → failed (w.setPf v)) ∧
    (v ≤ -90 ∨ 90 ≤ v → failed (rb.setRot v)) ∧
    (n ∉ ([1, 2, 3] : List ℤ) → failed (bc.setType n)) ∧
    (∀ K Ss B bot : α, K ≤ 0 ∨ Ss ≤ 0 ∨ B ≤ 0 →
      failed (Aq2dConf.make K Ss B bot)) ∧
    (∀ d : α, d ≤ 0 → ∀ cx cy : α, ∀ name : String,
      failed (CircBasin.make cx cy d name)) := by
  constructor
  · intro hv
    refine ⟨?_, ?_, ?_, ?_, ?_⟩ <;>
      simp [Aq2dConf.setK, Aq2dConf.setSs, Aq2dConf.setB,
        Aq1dFiniteConf.setL, Well.setR, not_lt.mpr hv, failed]
  refine ⟨?_, ?_, ?_, ?_, ?_, ?_⟩
  · intro hv
    rcases hv with hv | hv <;>
      simp [Aq2dUnconf.setSy, failed, not_lt.mpr hv]
  · intro hv
    rcases hv with hv | hv
    · simp [Well.setPf, failed, not_lt.mpr hv]
    · simp [Well.setPf, failed, not_le.mpr hv]
  · intro hv
    have : rb.setRot v = .error "Rotation angle must be between -90 and 90 deg." := by
      rcases hv with hv | hv <;> simp [RectBasin.setRot, hv]
    simp [this, failed]
  · intro hn
    simp [SteadyBC.setType, hn, failed]
  · intro K Ss B bot h
    rcases h with h | h | h
    · simp [Aq2dConf.make, not_lt.mpr h, failed]
    · rcases le_or_lt K 0 with hK | hK
      · simp [Aq2dConf.make, not_lt.mpr hK, failed]
      rcases le_or_lt B 0 with hB | hB
      · simp [Aq2dConf.make, hK, not_lt.mpr hB, failed]
      · simp [Aq2dConf.make, hK, hB, not_lt.mpr h, failed]
    · rcases le_or_lt K 0 with hK | hK
      · simp [Aq2dConf.make, not_lt.mpr hK, failed]
      · simp [Aq2dConf.make, hK, not_lt.mpr h, failed]
  · intro d hd cx cy name
    simp [CircBasin.make, not_lt.mpr hd, failed]

/-- C3 witness: the invalid-parameter theorem applied at the concrete
out-of-domain values v = -1, rotation -95, and boundary-condition
type 5, with every hypothesis discharged. -/
theorem invalid_parameter_assignment_fails_witness :
    failed ((⟨1, 1, 1, 0⟩ : Aq2dConf ℚ).setK (-1)) ∧
    failed ((⟨1, 1/2, 1, 0⟩ : Aq2dUnconf ℚ).setSy (-1)) ∧
    failed ((⟨0, 0, 1, 1⟩ : Well ℚ).setPf (-1)) ∧
    failed ((⟨0, 0, 10, 10, 0⟩ : RectBasin ℚ).setRot (-95)) ∧
    failed ((⟨2, 10, 0, 0⟩ : SteadyBC ℚ).setType 5) ∧
    failed (Aq2dConf.make (-1 : ℚ) 1 1 0) ∧
    failed (CircBasin.make (0 : ℚ) 0 (-1) "Unnamed Basin") := by
  have h := invalid_parameter_assignment_fails
    (⟨1, 1, 1, 0⟩ : Aq2dConf ℚ) ⟨1, 1/2, 1, 0⟩ ⟨1, 1, 1, 1, 0⟩
    ⟨0, 0, 1, 1⟩ ⟨0, 0, 10, 10, 0⟩ ⟨2, 10, 0, 0⟩ (-1) 5
  have h95 := invalid_parameter_assignment_fails
    (⟨1, 1, 1, 0⟩ : Aq2dConf ℚ) ⟨1, 1/2, 1, 0⟩ ⟨1, 1, 1, 1, 0⟩
    ⟨0, 0, 1, 1⟩ ⟨0, 0, 10, 10, 0⟩ ⟨2, 10, 0, 0⟩ (-95) 5
  exact ⟨(h.1 (by norm_num)).1,
    h.2.1 (Or.inl (by norm_num)),
    h.2.2.1 (Or.inl (by norm_num)),
    h95.2.2.2.1 (Or.inl (by norm_num)),
    h.2.2.2.2.1 (by decide),
    h.2.2.2.2.2.1 (-1) 1 1 0 (Or.inl (by norm_num)),
    h.2.2.2.2.2.2 (-1) (by norm_num) 0 0 "Unnamed Basin"⟩

end Claim3

/-- pygaf/utils.py, rotate_point (lines 29-46): clockwise rotation of
point (x1, y1) about (x0, y0) by phi radians.  numpy.cos and numpy.sin
are external imports, passed as the function parameters cos and sin. -/
def rotate_point (cos sin : ℝ → ℝ) (x0 y0 x1 y1 phi : ℝ) : ℝ × ℝ :=
  (x0 + (x1 - x0) * cos (-phi) - (y1 - y0) * sin (-phi),
   y0 + (y1 - y0) * cos (-phi) + (x1 - x0) * sin (-phi))

section Claim9

/-- C9: for every center (x0, y0), point (x1, y1) and angle phi,
rotate_point by phi followed by rotate_point about the same center by
-phi returns the original point; with cos/sin interpreted as the real
cosine/sine the composition is exactly the identity (which is within any
floating tolerance). -/
theorem rotate_point_inverse_angle (x0 y0 x1 y1 phi : ℝ) :
    rotate_point Real.cos Real.sin x0 y0
      (rotate_point Real.cos Real.sin x0 y0 x1 y1 phi).1
      (rotate_point Real.cos Real.sin x0 y0 x1 y1 phi).2 (-phi) = (x1, y1) := by
  have h := Real.sin_sq_add_cos_sq phi
  simp only [rotate_point, neg_neg, Real.cos_neg, Real.sin_neg, Prod.mk.injEq]
  constructor
  · linear_combination (x1 - x0) * h
  · linear_combination (y1 - y0) * h

end Claim9

section Claim10

variable {α : Type _} [LinearOrderedField α]

/-- C10: every successfully constructed CircBasin stores the name
argument in its rot attribute (never a numeric angle), because
CircBasin.__init__ passes name positionally into the rot parameter of
Basin.__init__. -/
theorem circ_basin_rot_is_name (cx cy diam : α) (name : String)
    (hd : 0 < diam) :
    ∃ b : CircBasin α, CircBasin.make cx cy diam name = .ok b ∧
      b.rot = Sum.inr name ∧ (∀ z : α, b.rot ≠ Sum.inl z) ∧ b.name = name := by
  refine ⟨⟨cx, cy, Sum.inr name, diam, name⟩, ?_, rfl, ?_, rfl⟩
  · simp [CircBasin.make, Basin.init, hd]
  · intro z h
    exact Sum.inr_ne_inl h

/-- C10 witness: the default CircBasin (cx=0, cy=0, diam=10,
name='Unnamed Basin') has rot equal to the string 'Unnamed Basin'. -/
theorem circ_basin_rot_is_name_witness :
    ∃ b : CircBasin ℚ, CircBasin.make 0 0 10 "Unnamed Basin" = .ok b ∧
      b.rot = Sum.inr "Unnamed Basin" ∧
      (∀ z : ℚ, b.rot ≠ Sum.inl z) ∧ b.name = "Unnamed Basin" :=
  circ_basin_rot_is_name 0 0 10 "Unnamed Basin" (by norm_num)

end Claim10

section StressSeriesModel

variable {α : Type _} [LinearOrderedField α]

/-- pygaf/stresses.py, class StressSeries: parallel lists of stress
period lengths and stress values. -/
structure StressSeries (α : Type _) where
  periods : List α
  values : List α
  deriving DecidableEq

/-- StressSeries.periods setter (stresses.py lines 53-57): raises unless
min(v) > 0 (Python's min raises ValueError on an empty list).  Note the
setter does not compare the length of v against the current values
list. -/
def StressSeries.setPeriods (s : StressSeries α) (v : List α) :
    Except String (StressSeries α) :=
  match v.min? with
  | none => .error "ValueError: min() arg is an empty sequence"
  | some m =>
    if ¬ (m > 0) then .error "All stress periods must be positive."
    else .ok { s with periods := v }

/-- StressSeries.values setter (stresses.py lines 68-74): raises unless
len(v) equals len(periods). -/
def StressSeries.setValues (s : StressSeries α) (v : List α) :
    Except String (StressSeries α) :=
  if v.length ≠ s.periods.length then
    .error "The number of stress periods and values must match."
  else .ok { s with values := v }

/-- StressSeries.__init__ (stresses.py lines 31-42) without csv input:
the periods setter runs first, then the values setter checks the length
against the periods just stored. -/
def StressSeries.make (periods values : List α) :
    Except String (StressSeries α) :=
  match periods.min? with
  | none => .error "ValueError: min() arg is an empty sequence"
  | some m =>
    if ¬ (m > 0) then .error "All stress periods must be positive."
    else if values.length ≠ periods.length then
      .error "The number of stress periods and values must match."
    else .ok ⟨periods, values⟩

/-- StressSeries.__init__ csv branch (stresses.py lines 39-42): the two
equal-length columns of the csv are assigned through the periods setter
and then the values setter. -/
def StressSeries.loadCsv (s : StressSeries α) (rows : List (α × α)) :
    Except String (StressSeries α) :=
  match s.setPeriods (rows.map Prod.fst) with
  | .error e => .error e
  | .ok s1 => s1.setValues (rows.map Prod.snd)

end StressSeriesModel

section Claim8

variable {α : Type _} [LinearOrderedField α]

/-- C8 counterexample: assigning a longer periods list to a StressSeries
succeeds (the periods setter checks only positivity), leaving an object
whose periods and values lists have different lengths — the claimed
invariant preservation fails at this concrete input. -/
theorem stress_series_periods_assignment_breaks_invariant :
    (⟨[1], [0]⟩ : StressSeries ℚ).setPeriods [1, 2] =
      .ok (⟨[1, 2], [0]⟩ : StressSeries ℚ) ∧
    (⟨[1, 2], [0]⟩ : StressSeries ℚ).periods.length ≠
      (⟨[1, 2], [0]⟩ : StressSeries ℚ).values.length := by
  constructor
  · simp [StressSeries.setPeriods, List.min?]
  · decide

/-- C8 amended: construction, values assignment and csv loading preserve
len(periods) = len(values); periods assignment checks only that all new
periods are positive and keeps the old values list unchanged, so it does
not preserve the invariant when the new list has a different length. -/
theorem stress_series_invariant_operations
    (ps vs v : List α) (s s' : StressSeries α) (rows : List (α × α)) :
    (StressSeries.make ps vs = .ok s' →
      s'.periods.length = s'.values.length ∧
      s'.periods = ps ∧ s'.values = vs) ∧
    (s.setValues v = .ok s' → s'.periods.length = s'.values.length) ∧
    (s.loadCsv rows = .ok s' → s'.periods.length = s'.values.length) ∧
    (s.setPeriods v = .ok s' → s'.periods = v ∧ s'.values = s.values) := by
  refine ⟨?_, ?_, ?_, ?_⟩
  · intro h
    unfold StressSeries.make at h
    rcases hm : ps.min? with _ | m <;> rw [hm] at h
    · simp at h
    · by_cases h0 : m > 0
      · by_cases hl : vs.length = ps.length
        · simp [h0, hl] at h
          refine ⟨?_, ?_, ?_⟩ <;> simp [← h, hl]
        · simp [h0, hl] at h
      · simp [h0] at h
  · intro h
    unfold StressSeries.setValues at h
    by_cases hl : v.length = s.periods.length
    · simp [hl] at h
      simp [← h, hl]
    · simp [hl] at h
  · intro h
    unfold StressSeries.loadCsv at h
    rcases h1 : s.setPeriods (rows.map Prod.fst) with e | s1 <;>
      rw [h1] at h
    · simp at h
    · unfold StressSeries.setValues at h
      by_cases hl : rows.length = s1.periods.length
      · simp [hl] at h
        simp [← h, hl]
      · simp [hl] at h
  · intro h
    unfold StressSeries.setPeriods at h
    rcases hm : v.min? with _ | m <;> rw [hm] at h
    · simp at h
    · by_cases h0 : m > 0
      · simp [h0] at h
        simp [← h]
      · simp [h0] at h

/-- C8 witness: the amended-invariant theorem applied to concrete
operations on a default StressSeries over the rationals. -/
theorem stress_series_invariant_operations_witness :
    (StressSeries.make ([1] : List ℚ) [0] = .ok (⟨[1], [0]⟩ : StressSeries ℚ) →
      (⟨[1], [0]⟩ : StressSeries ℚ).periods.length =
        (⟨[1], [0]⟩ : StressSeries ℚ).values.length ∧
      (⟨[1], [0]⟩ : StressSeries ℚ).periods = [1] ∧
      (⟨[1], [0]⟩ : StressSeries ℚ).values = [0]) ∧
    ((⟨[1], [0]⟩ : StressSeries ℚ).periods.length =
      (⟨[1], [0]⟩ : StressSeries ℚ).values.length ∧
      (⟨[1], [0]⟩ : StressSeries ℚ).periods = [1] ∧
      (⟨[1], [0]⟩ : StressSeries ℚ).values = [0]) :=
  ⟨((stress_series_invariant_operations [1] [0] [0] ⟨[1], [0]⟩ ⟨[1], [0]⟩
      []).1),
   ((stress_series_invariant_operations [1] [0] [0] ⟨[1], [0]⟩ ⟨[1], [0]⟩
      []).1) (by simp [StressSeries.make, List.min?])⟩

end Claim8

section Grids

variable {α : Type _} [LinearOrderedField α]

/-- numpy.linspace(a, b, n) with the default endpoint=True: n evenly
spaced samples with both a and b included (sample i is
a + i·(b-a)/(n-1)). -/
def linspace (a b : α) (n : ℕ) : List α :=
  (List.range n).map fun i : ℕ => a + (i : α) * (b - a) / ((n - 1 : ℕ) : α)

/-- pygaf/grids.py, class WellGrid: grid radius and requested density
(min_gd = 11 and max_gd = 41 are set in __init__; the well reference
only feeds the world-coordinate columns, which are outside the claims
and omitted). -/
structure WellGrid (α : Type _) where
  gr : α
  gd : ℤ

/-- WellGrid.gr setter (grids.py lines 42-46): raises unless v > 0. -/
def WellGrid.setGr (g : WellGrid α) (v : α) : Except String (WellGrid α) :=
  if ¬ (v > 0) then .error "Grid radius must be greater than 0."
  else .ok { g with gr := v }

/-- WellGrid.grdim property (grids.py lines 49-56): density clamped to
[11, 41]. -/
def WellGrid.grdim (g : WellGrid α) : ℕ :=
  if g.gd < 11 then 11
  else if g.gd > 41 then 41
  else g.gd.toNat

/-- WellGrid.npts property (grids.py line 61): grdim squared. -/
def WellGrid.npts (g : WellGrid α) : ℕ := g.grdim ^ 2

/-- WellGrid.pts row (grids.py line 73):
numpy.linspace(-gr, gr, grdim). -/
def WellGrid.row (g : WellGrid α) : List α := linspace (-g.gr) g.gr g.grdim

/-- WellGrid.pts locx column (grids.py lines 74, 76): grdim copies of
row, flattened. -/
def WellGrid.locx (g : WellGrid α) : List α :=
  (List.replicate g.grdim g.row).flatten

/-- WellGrid.pts locy column (grids.py lines 75, 77): for each entry of
row, grdim copies, flattened. -/
def WellGrid.locy (g : WellGrid α) : List α :=
  (g.row.map fun v => List.replicate g.grdim v).flatten

/-- pygaf/grids.py, class BasinGrid: identical radius/density handling
(lines 149-208); the basin reference only feeds the rotated/world
columns, outside the claims. -/
structure BasinGrid (α : Type _) where
  gr : α
  gd : ℤ

/-- BasinGrid.grdim property (grids.py lines 172-179), textually the
same clamp as WellGrid.grdim. -/
def BasinGrid.grdim (g : BasinGrid α) : ℕ :=
  if g.gd < 11 then 11
  else if g.gd > 41 then 41
  else g.gd.toNat

/-- BasinGrid.npts property (grids.py line 184): grdim squared. -/
def BasinGrid.npts (g : BasinGrid α) : ℕ := g.grdim ^ 2

/-- BasinGrid.pts row (grids.py line 196). -/
def BasinGrid.row (g : BasinGrid α) : List α := linspace (-g.gr) g.gr g.grdim

/-- BasinGrid.pts locx column (grids.py lines 197, 199). -/
def BasinGrid.locx (g : BasinGrid α) : List α :=
  (List.replicate g.grdim g.row).flatten

/-- BasinGrid.pts locy column (grids.py lines 198, 200). -/
def BasinGrid.locy (g : BasinGrid α) : List α :=
  (g.row.map fun v => List.replicate g.grdim v).flatten

end Grids

section GridLemmas

variable {α : Type _} [LinearOrderedField α]

lemma linspace_length (a b : α) (n : ℕ) : (linspace a b n).length = n := by
  unfold linspace
  rw [List.length_map, List.length_range]

lemma linspace_get (a b : α) (n i : ℕ) (hi : i < n) :
    (linspace a b n)[i]? = some (a + (i : α) * (b - a) / ((n - 1 : ℕ) : α)) := by
  unfold linspace
  rw [List.getElem?_map, List.getElem?_range hi]
  rfl

lemma linspace_first (a b : α) (n : ℕ) (hn : 0 < n) :
    (linspace a b n)[0]? = some a := by
  rw [linspace_get a b n 0 hn]
  norm_num

lemma linspace_last (a b : α) (n : ℕ) (hn : 2 ≤ n) :
    (linspace a b n)[n - 1]? = some b := by
  rw [linspace_get a b n (n - 1) (by omega)]
  have h1 : n - 1 ≠ 0 := by omega
  have hne : ((n - 1 : ℕ) : α) ≠ 0 := Nat.cast_ne_zero.mpr h1
  have h2 : ((n - 1 : ℕ) : α) * (b - a) / ((n - 1 : ℕ) : α) = b - a := by
    rw [mul_comm, mul_div_assoc, div_self hne, mul_one]
  rw [h2]
  congr 1
  ring

lemma linspace_step (a b : α) (n i : ℕ) (hi : i + 1 < n) :
    ∃ x y, (linspace a b n)[i]? = some x ∧
      (linspace a b n)[i + 1]? = some y ∧
      y - x = (b - a) / ((n - 1 : ℕ) : α) := by
  refine ⟨_, _, linspace_get a b n i (by omega),
    linspace_get a b n (i + 1) hi, ?_⟩
  push_cast
  ring

lemma mem_flatten_replicate (n : ℕ) (l : List α) (hn : 0 < n) :
    ∀ x, x ∈ (List.replicate n l).flatten ↔ x ∈ l := by
  intro x
  constructor
  · intro hx
    rcases List.mem_flatten.mp hx with ⟨t, ht, hxt⟩
    rcases List.eq_of_mem_replicate ht with rfl
    exact hxt
  · intro hx
    exact List.mem_flatten.mpr ⟨l, List.mem_replicate.mpr ⟨by omega, rfl⟩, hx⟩

lemma mem_flatten_map_replicate (n : ℕ) (l : List α) (hn : 0 < n) :
    ∀ x, x ∈ (l.map fun v => List.replicate n v).flatten ↔ x ∈ l := by
  intro x
  constructor
  · intro hx
    rcases List.mem_flatten.mp hx with ⟨t, ht, hxt⟩
    rcases List.mem_map.mp ht with ⟨v, hv, rfl⟩
    rcases List.eq_of_mem_replicate hxt with rfl
    exact hv
  · intro hx
    exact List.mem_flatten.mpr ⟨List.replicate n x,
      List.mem_map.mpr ⟨x, hx, rfl⟩, List.mem_replicate.mpr ⟨by omega, rfl⟩⟩

lemma length_flatten_replicate (n : ℕ) (l : List α) :
    (List.replicate n l).flatten.length = n * l.length := by
  induction n with
  | zero => simp
  | succ m ih => simp [List.replicate_succ, ih, Nat.succ_mul, Nat.add_comm]

lemma length_flatten_map_replicate (n : ℕ) (l : List α) :
    (l.map fun v => List.replicate n v).flatten.length = l.length * n := by
  induction l with
  | nil => simp
  | cons a t ih => simp [ih, Nat.succ_mul, Nat.add_comm]

end GridLemmas

section Claim5

variable {α : Type _} [LinearOrderedField α]

/-- C5: for every WellGrid and BasinGrid with radius gr > 0 and
requested density gd: densities below 11 are clamped to exactly 11,
densities above 41 to exactly 41, in-range densities kept exactly; the
number of grid points is grdim²; and each local axis carries exactly the
grdim evenly spaced linspace values on [-gr, gr] with both endpoints
included. -/
theorem grid_density_clamp_and_local_coords
    (g : WellGrid α) (b : BasinGrid α) (hgr : 0 < g.gr) (hbr : 0 < b.gr) :
    ((g.gd < 11 → g.grdim = 11) ∧ (g.gd > 41 → g.grdim = 41) ∧
      (11 ≤ g.gd → g.gd ≤ 41 → (g.grdim : ℤ) = g.gd) ∧
      g.npts = g.grdim ^ 2 ∧
      g.locx.length = g.npts ∧ g.locy.length = g.npts ∧
      g.row.length = g.grdim ∧
      g.row[0]? = some (-g.gr) ∧
      g.row[g.grdim - 1]? = some g.gr ∧
      (∀ i : ℕ, i + 1 < g.grdim → ∃ x y, g.row[i]? = some x ∧
        g.row[i + 1]? = some y ∧
        y - x = (g.gr - -g.gr) / ((g.grdim - 1 : ℕ) : α)) ∧
      (∀ x : α, x ∈ g.locx ↔ x ∈ g.row) ∧
      (∀ x : α, x ∈ g.locy ↔ x ∈ g.row)) ∧
    ((b.gd < 11 → b.grdim = 11) ∧ (b.gd > 41 → b.grdim = 41) ∧
      (11 ≤ b.gd → b.gd ≤ 41 → (b.grdim : ℤ) = b.gd) ∧
      b.npts = b.grdim ^ 2 ∧
      b.locx.length = b.npts ∧ b.locy.length = b.npts ∧
      b.row.length = b.grdim ∧
      b.row[0]? = some (-b.gr) ∧
      b.row[b.grdim - 1]? = some b.gr ∧
      (∀ i : ℕ, i + 1 < b.grdim → ∃ x y, b.row[i]? = some x ∧
        b.row[i + 1]? = some y ∧
        y - x = (b.gr - -b.gr) / ((b.grdim - 1 : ℕ) : α)) ∧
      (∀ x : α, x ∈ b.locx ↔ x ∈ b.row) ∧
      (∀ x : α, x ∈ b.locy ↔ x ∈ b.row)) := by
  have hgdim : 11 ≤ g.grdim := by
    unfold WellGrid.grdim
    split
    · omega
    · split <;> omega
  have hbdim : 11 ≤ b.grdim := by
    unfold BasinGrid.grdim
    split
    · omega
    · split <;> omega
  constructor
  · refine ⟨?_, ?_, ?_, rfl, ?_, ?_, linspace_length _ _ _,
      linspace_first _ _ _ (by omega), linspace_last _ _ _ (by omega),
      fun i hi => linspace_step _ _ _ i hi,
      mem_flatten_replicate _ _ (by omega),
      mem_flatten_map_replicate _ _ (by omega)⟩
    · intro h; simp [WellGrid.grdim, h]
    · intro h
      have h3 : ¬ g.gd < 11 := by omega
      simp [WellGrid.grdim, h3, h]
    · intro h1 h2
      have h3 : ¬ g.gd < 11 := by omega
      have h4 : ¬ g.gd > 41 := by omega
      simp only [WellGrid.grdim, if_neg h3, if_neg h4]
      omega
    · rw [WellGrid.locx, length_flatten_replicate, WellGrid.row,
        linspace_length, WellGrid.npts, sq]
    · rw [WellGrid.locy, length_flatten_map_replicate, WellGrid.row,
        linspace_length, WellGrid.npts, sq]
  · refine ⟨?_, ?_, ?_, rfl, ?_, ?_, linspace_length _ _ _,
      linspace_first _ _ _ (by omega), linspace_last _ _ _ (by omega),
      fun i hi => linspace_step _ _ _ i hi,
      mem_flatten_replicate _ _ (by omega),
      mem_flatten_map_replicate _ _ (by omega)⟩
    · intro h; simp [BasinGrid.grdim, h]
    · intro h
      have h3 : ¬ b.gd < 11 := by omega
      simp [BasinGrid.grdim, h3, h]
    · intro h1 h2
      have h3 : ¬ b.gd < 11 := by omega
      have h4 : ¬ b.gd > 41 := by omega
      simp only [BasinGrid.grdim, if_neg h3, if_neg h4]
      omega
    · rw [BasinGrid.locx, length_flatten_replicate, BasinGrid.row,
        linspace_length, BasinGrid.npts, sq]
    · rw [BasinGrid.locy, length_flatten_map_replicate, BasinGrid.row,
        linspace_length, BasinGrid.npts, sq]

/-- C5 witness: the clamp and local-coordinate facts at the default grid
gr = 100, gd = 21 (and a clamped basin grid with gd = 50). -/
theorem grid_density_clamp_and_local_coords_witness :
    ((⟨100, 21⟩ : WellGrid ℚ).gd < 11 → (⟨100, 21⟩ : WellGrid ℚ).grdim = 11) ∧
    ((⟨100, 21⟩ : WellGrid ℚ).npts = (⟨100, 21⟩ : WellGrid ℚ).grdim ^ 2) ∧
    ((⟨100, 50⟩ : BasinGrid ℚ).gd > 41 → (⟨100, 50⟩ : BasinGrid ℚ).grdim = 41) ∧
    ((⟨100, 21⟩ : WellGrid ℚ).row[0]? = some (-100 : ℚ)) := by
  have h := grid_density_clamp_and_local_coords
    (⟨100, 21⟩ : WellGrid ℚ) (⟨100, 50⟩ : BasinGrid ℚ)
    (by norm_num) (by norm_num)
  exact ⟨h.1.1, h.1.2.2.2.1, h.2.2.1, h.1.2.2.2.2.2.2.2.1⟩

end Claim5

section TheisThiem

variable {α : Type _} [LinearOrderedField α]

/-- TheisWell.ri (pygaf/solutions/theis_1935.py lines 48-120,
computation at lines 79-94).  Results carry (Time, ri) rows.
Except.error models the ValueError raised by Python's min() on an empty
list; Except.ok none models the print-error-and-return-None path; the
plot/export tail of the method is presentation-only. -/
def TheisWell.ri (sqrt log : α → α) (T S qf : α) (t : List α) :
    Except String (Option (List (α × α))) :=
  if qf < 0 ∨ qf > 1 then .ok none
  else
    match t.min? with
    | none => .error "ValueError: min() arg is an empty sequence"
    | some m =>
      if m ≤ 0 then .ok none
      else .ok (some (t.map fun tim =>
        (tim, sqrt (-4 * T * tim * log (1 - qf) / S))))

/-- TheisWell.dd (theis_1935.py lines 122-193, computation at lines
152-167).  The result rows are, per radius, the drawdowns over the time
list.  min(t) is evaluated first; min(r) is only evaluated when
min(t) > 0 (Python's short-circuit or). -/
def TheisWell.dd (expn1 : α → α) (pi T S q : α) (t r : List α) :
    Except String (Option (List (List α))) :=
  match t.min? with
  | none => .error "ValueError: min() arg is an empty sequence"
  | some mt =>
    if mt ≤ 0 then .ok none
    else
      match r.min? with
      | none => .error "ValueError: min() arg is an empty sequence"
      | some mr =>
        if mr ≤ 0 then .ok none
        else .ok (some (r.map fun rad => t.map fun tim =>
          q * expn1 (rad ^ 2 * S / (4 * T * tim)) / (4 * pi * T)))

/-- ThiemWell.hd (pygaf/solutions/thiem_1906.py lines 36-50): head
difference between two radii; none models print-error-and-return-None
for a non-positive radius. -/
def ThiemWell.hd (log : α → α) (pi T q r1 r2 : α) : Option α :=
  if r1 ≤ 0 ∨ r2 ≤ 0 then none
  else some (q * log (r2 / r1) / (2 * pi * T))

end TheisThiem

section MinHelpers

variable {α : Type _} [LinearOrderedField α]

lemma min?_le_of_mem {t : List α} {x : α} (hx : x ∈ t) :
    ∃ m, t.min? = some m ∧ m ≤ x := by
  obtain ⟨m, hm⟩ := Option.isSome_iff_exists.mp (List.isSome_min?_of_mem hx)
  exact ⟨m, hm,
    (List.le_min?_iff (fun a b c => le_min_iff) hm).1 (le_refl m) x hx⟩

lemma min?_pos_of_forall_pos {t : List α} {m : α} (hm : t.min? = some m)
    (h : ∀ x ∈ t, 0 < x) : 0 < m :=
  h m (List.min?_mem (fun a b => min_choice a b) hm)

end MinHelpers

section Claim4

variable {α : Type _} [LinearOrderedField α]

/-- C4 counterexample: a bulk call with a supplied non-positive radius
(-1) but an empty time list raises a ValueError from min() instead of
reporting and returning None, so the claim as stated fails at this
concrete input. -/
theorem theis_dd_empty_times_raises :
    TheisWell.dd (fun _ => (0 : ℚ)) 3 1 1 1 [] [-1] =
      .error "ValueError: min() arg is an empty sequence" := rfl

/-- C4 amended: whenever the lists actually consulted are nonempty, a
non-positive supplied time or radius makes the bulk method report the
error and return None with no partial results — any time ≤ 0 makes
TheisWell.ri and TheisWell.dd return None; if all times are positive
and the time list is nonempty, any radius ≤ 0 makes TheisWell.dd return
None; a non-positive radius makes ThiemWell.hd return None; but an
empty consulted list instead raises ValueError from min(). -/
theorem bulk_eval_nonpositive_input_returns_none
    (sqrt log expn1 : α → α) (pi T S q qf r1 r2 : α) (t r : List α) :
    ((∃ x ∈ t, x ≤ 0) → TheisWell.ri sqrt log T S qf t = .ok none) ∧
    ((∃ x ∈ t, x ≤ 0) → TheisWell.dd expn1 pi T S q t r = .ok none) ∧
    ((∀ x ∈ t, 0 < x) → t ≠ [] → (∃ y ∈ r, y ≤ 0) →
      TheisWell.dd expn1 pi T S q t r = .ok none) ∧
    (r1 ≤ 0 ∨ r2 ≤ 0 → ThiemWell.hd log pi T q r1 r2 = none) := by
  refine ⟨?_, ?_, ?_, ?_⟩
  · rintro ⟨x, hx, hx0⟩
    obtain ⟨m, hm, hmx⟩ := min?_le_of_mem hx
    unfold TheisWell.ri
    by_cases hqf : qf < 0 ∨ qf > 1
    · rw [if_pos hqf]
    · rw [if_neg hqf, hm]
      simp [le_trans hmx hx0]
  · rintro ⟨x, hx, hx0⟩
    obtain ⟨m, hm, hmx⟩ := min?_le_of_mem hx
    unfold TheisWell.dd
    rw [hm]
    simp [le_trans hmx hx0]
  · rintro ht hne ⟨y, hy, hy0⟩
    obtain ⟨mt, hmt⟩ : ∃ mt, t.min? = some mt := by
      rcases t with _ | ⟨a, ts⟩
      · exact absurd rfl hne
      · exact Option.isSome_iff_exists.mp
          (List.isSome_min?_of_mem (List.mem_cons_self a ts))
    obtain ⟨mr, hmr, hmy⟩ := min?_le_of_mem hy
    unfold TheisWell.dd
    rw [hmt, hmr]
    simp [not_le.mpr (min?_pos_of_forall_pos hmt ht), le_trans hmy hy0]
  · intro h
    unfold ThiemWell.hd
    rw [if_pos h]

/-- C4 witness: the amended theorem applied over the rationals at
t = [-1], r = [2] (non-positive time), t = [1], r = [-1] (non-positive
radius) and r1 = -1 for ThiemWell.hd. -/
theorem bulk_eval_nonpositive_input_returns_none_witness :
    TheisWell.ri (fun _ => (0 : ℚ)) (fun _ => 0) 1 1 (99/100) [-1] = .ok none ∧
    TheisWell.dd (fun _ => (0 : ℚ)) 3 1 1 1 [-1] [2] = .ok none ∧
    TheisWell.dd (fun _ => (0 : ℚ)) 3 1 1 1 [1] [-1] = .ok none ∧
    ThiemWell.hd (fun _ => (0 : ℚ)) 3 1 1 (-1) 2 = none := by
  refine ⟨?_, ?_, ?_, ?_⟩
  · exact (bulk_eval_nonpositive_input_returns_none (fun _ => (0 : ℚ))
      (fun _ => 0) (fun _ => 0) 3 1 1 1 (99/100) (-1) 2 [-1] [2]).1
      ⟨-1, by norm_num⟩
  · exact (bulk_eval_nonpositive_input_returns_none (fun _ => (0 : ℚ))
      (fun _ => 0) (fun _ => 0) 3 1 1 1 (99/100) (-1) 2 [-1] [2]).2.1
      ⟨-1, by norm_num⟩
  · exact (bulk_eval_nonpositive_input_returns_none (fun _ => (0 : ℚ))
      (fun _ => 0) (fun _ => 0) 3 1 1 1 (99/100) (-1) 2 [1] [-1]).2.2.1
      (by norm_num) (by norm_num) ⟨-1, by norm_num⟩
  · exact (bulk_eval_nonpositive_input_returns_none (fun _ => (0 : ℚ))
      (fun _ => 0) (fun _ => 0) 3 1 1 1 (99/100) (-1) 2 [1] [-1]).2.2.2
      (Or.inl (by norm_num))

end Claim4

section SteadyFlow

variable {α : Type _} [LinearOrderedField α]

/-- The exception Exception('Aquifer is dry at x = ' + str(x)) raised in
the 1D steady-flow evaluations, carrying the offending position. -/
inductive FlowError (α : Type _) where
  | dryAt (x : α)
  deriving DecidableEq

/-- Steady1dConfFlow.bc_t2_t1 (pygaf/solutions/steady_flow.py lines
36-41): head, flow, gradient for type 2 bc at x=0 and type 1 bc at
x=L. -/
def Steady1dConfFlow.bc_t2_t1 (H Q L T R x : α) : α × α × α :=
  let h := H + R * (L ^ 2 - x ^ 2) / (2 * T) + Q * (L - x) / T
  let q := R * x + Q
  (h, q, q / T)

/-- Steady1dConfFlow.bc_t1_t1 (steady_flow.py lines 44-49). -/
def Steady1dConfFlow.bc_t1_t1 (H0 HL L T R x : α) : α × α × α :=
  let h := H0 * (1 - x / L) + HL * (x / L) + R * (L * x - x ^ 2) / (2 * T)
  let q := T * (H0 - HL) / L - R * (L - 2 * x) / 2
  (h, q, q / T)

/-- Steady1dConfFlow.types (steady_flow.py lines 25-33): raises unless
at least one of the two boundary conditions is type 1 (this property is
not consulted by the h/q/h_grad methods). -/
def Steady1dConfFlow.types (bc0 bcL : SteadyBC α) : Except String (ℤ × ℤ) :=
  if ¬ (bc0.type = 1 ∨ bcL.type = 1) then
    .error "At least one boundary condition must be type 1."
  else .ok (bc0.type, bcL.type)

/-- Steady1dUnconfFlow.bc_t2_t1 (steady_flow.py lines 294-302): raises
the dry-aquifer exception when the radicand is negative, before the
square root is taken. -/
def Steady1dUnconfFlow.bc_t2_t1 (sqrt : α → α) (H Q L K R x : α) :
    Except (FlowError α) (α × α × α) :=
  if H ^ 2 + R * (L ^ 2 - x ^ 2) / K + 2 * Q * (L - x) / K < 0 then
    .error (.dryAt x)
  else
    let h := sqrt (H ^ 2 + R * (L ^ 2 - x ^ 2) / K + 2 * Q * (L - x) / K)
    let q := R * x + Q
    .ok (h, q, q / (K * h))

/-- Steady1dUnconfFlow.bc_t1_t1 (steady_flow.py lines 304-310). -/
def Steady1dUnconfFlow.bc_t1_t1 (sqrt : α → α) (H0 HL L K R x : α) :
    α × α × α :=
  let h := sqrt (H0 ^ 2 * (1 - x / L) + HL ^ 2 * (x / L) +
    R * (L * x - x ^ 2) / K)
  let q := K * (H0 - HL) / (2 * L) - R * (L - 2 * x) / 2
  (h, q, q / (K * h))

/-- The x column of the h/q/h_grad dataframes (steady_flow.py lines 83,
152, 215, 344, 413, 476): [i * L / (n-1) for i in range(n)]. -/
def xvals (L : α) (n : ℕ) : List α :=
  (List.range n).map fun i : ℕ => (i : α) * L / ((n - 1 : ℕ) : α)

/-- The shared evaluation loop of the h/q/h_grad methods: for each x the
(head, flow, gradient) triple is computed (the unconfined type-2/type-1
solution may itself raise), the head is compared against the aquifer
bottom and the dry-aquifer exception raised when head ≤ bot, otherwise
the selected component is appended. -/
def sweep (bot : α) (f : α → Except (FlowError α) (α × α × α))
    (sel : α × α × α → α) : List α → Except (FlowError α) (List α)
  | [] => .ok []
  | x :: rest =>
    match f x with
    | .error e => .error e
    | .ok tri =>
      if tri.1 ≤ bot then .error (.dryAt x)
      else
        match sweep bot f sel rest with
        | .error e => .error e
        | .ok vs => .ok (sel tri :: vs)

/-- Propagation of the evaluation-loop outcome into the returned frame:
an exception escapes the method, a completed column is paired with the
x column. -/
def withXs (xs : List α) :
    Except (FlowError α) (List α) →
    Except (FlowError α) (List α × Option (List α))
  | .error e => .error e
  | .ok col => .ok (xs, some col)

/-- Steady1dConfFlow.h (steady_flow.py lines 64-130): branch on the two
supported boundary combinations; outside them no head column is built
and no error is raised (result carries none in place of the h column).
Inside a branch, bcL.value['head'] is the head field of a type 1 bc and
bc0.value['flow'] the flow field of a type 2 bc (bcs.py lines 46-53). -/
def Steady1dConfFlow.h (aq : Aq1dFiniteConf α) (bc0 bcL : SteadyBC α)
    (R : α) (n : ℕ) : Except (FlowError α) (List α × Option (List α)) :=
  let xs := xvals aq.L n
  if bc0.type = 2 ∧ bcL.type = 1 then
    withXs xs (sweep aq.bot
      (fun x => .ok (Steady1dConfFlow.bc_t2_t1 bcL.head bc0.flow aq.L aq.T R x))
      (fun tri => tri.1) xs)
  else if bc0.type = 1 ∧ bcL.type = 1 then
    withXs xs (sweep aq.bot
      (fun x => .ok (Steady1dConfFlow.bc_t1_t1 bc0.head bcL.head aq.L aq.T R x))
      (fun tri => tri.1) xs)
  else .ok (xs, none)

/-- Steady1dConfFlow.q (steady_flow.py lines 133-193): same branching
and dry check, recording the flow component. -/
def Steady1dConfFlow.q (aq : Aq1dFiniteConf α) (bc0 bcL : SteadyBC α)
    (R : α) (n : ℕ) : Except (FlowError α) (List α × Option (List α)) :=
  let xs := xvals aq.L n
  if bc0.type = 2 ∧ bcL.type = 1 then
    withXs xs (sweep aq.bot
      (fun x => .ok (Steady1dConfFlow.bc_t2_t1 bcL.head bc0.flow aq.L aq.T R x))
      (fun tri => tri.2.1) xs)
  else if bc0.type = 1 ∧ bcL.type = 1 then
    withXs xs (sweep aq.bot
      (fun x => .ok (Steady1dConfFlow.bc_t1_t1 bc0.head bcL.head aq.L aq.T R x))
      (fun tri => tri.2.1) xs)
  else .ok (xs, none)

/-- Steady1dConfFlow.h_grad (steady_flow.py lines 196-256): same
branching and dry check, recording the gradient component. -/
def Steady1dConfFlow.h_grad (aq : Aq1dFiniteConf α) (bc0 bcL : SteadyBC α)
    (R : α) (n : ℕ) : Except (FlowError α) (List α × Option (List α)) :=
  let xs := xvals aq.L n
  if bc0.type = 2 ∧ bcL.type = 1 then
    withXs xs (sweep aq.bot
      (fun x => .ok (Steady1dConfFlow.bc_t2_t1 bcL.head bc0.flow aq.L aq.T R x))
      (fun tri => tri.2.2) xs)
  else if bc0.type = 1 ∧ bcL.type = 1 then
    withXs xs (sweep aq.bot
      (fun x => .ok (Steady1dConfFlow.bc_t1_t1 bc0.head bcL.head aq.L aq.T R x))
      (fun tri => tri.2.2) xs)
  else .ok (xs, none)

/-- Steady1dUnconfFlow.h (steady_flow.py lines 325-391): as the confined
version but with the unconfined solutions (which take K rather than T;
numpy.sqrt is the passed parameter). -/
def Steady1dUnconfFlow.h (sqrt : α → α) (aq : Aq1dFiniteUnconf α)
    (bc0 bcL : SteadyBC α) (R : α) (n : ℕ) :
    Except (FlowError α) (List α × Option (List α)) :=
  let xs := xvals aq.L n
  if bc0.type = 2 ∧ bcL.type = 1 then
    withXs xs (sweep aq.bot
      (fun x => Steady1dUnconfFlow.bc_t2_t1 sqrt bcL.head bc0.flow aq.L aq.K R x)
      (fun tri => tri.1) xs)
  else if bc0.type = 1 ∧ bcL.type = 1 then
    withXs xs (sweep aq.bot
      (fun x => .ok (Steady1dUnconfFlow.bc_t1_t1 sqrt bc0.head bcL.head aq.L aq.K R x))
      (fun tri => tri.1) xs)
  else .ok (xs, none)

/-- Steady1dUnconfFlow.q (steady_flow.py lines 394-454). -/
def Steady1dUnconfFlow.q (sqrt : α → α) (aq : Aq1dFiniteUnconf α)
    (bc0 bcL : SteadyBC α) (R : α) (n : ℕ) :
    Except (FlowError α) (List α × Option (List α)) :=
  let xs := xvals aq.L n
  if bc0.type = 2 ∧ bcL.type = 1 then
    withXs xs (sweep aq.bot
      (fun x => Steady1dUnconfFlow.bc_t2_t1 sqrt bcL.head bc0.flow aq.L aq.K R x)
      (fun tri => tri.2.1) xs)
  else if bc0.type = 1 ∧ bcL.type = 1 then
    withXs xs (sweep aq.bot
      (fun x => .ok (Steady1dUnconfFlow.bc_t1_t1 sqrt bc0.head bcL.head aq.L aq.K R x))
      (fun tri => tri.2.1) xs)
  else .ok (xs, none)

/-- Steady1dUnconfFlow.h_grad (steady_flow.py lines 457-517). -/
def Steady1dUnconfFlow.h_grad (sqrt : α → α) (aq : Aq1dFiniteUnconf α)
    (bc0 bcL : SteadyBC α) (R : α) (n : ℕ) :
    Except (FlowError α) (List α × Option (List α)) :=
  let xs := xvals aq.L n
  if bc0.type = 2 ∧ bcL.type = 1 then
    withXs xs (sweep aq.bot
      (fun x => Steady1dUnconfFlow.bc_t2_t1 sqrt bcL.head bc0.flow aq.L aq.K R x)
      (fun tri => tri.2.2) xs)
  else if bc0.type = 1 ∧ bcL.type = 1 then
    withXs xs (sweep aq.bot
      (fun x => .ok (Steady1dUnconfFlow.bc_t1_t1 sqrt bc0.head bcL.head aq.L aq.K R x))
      (fun tri => tri.2.2) xs)
  else .ok (xs, none)

/-- A position x is offending for the triple function f and bottom bot
when f either raises at x or yields a head at most bot. -/
def dryOffense (bot : α) (f : α → Except (FlowError α) (α × α × α))
    (x : α) : Prop :=
  ∀ tri, f x = .ok tri → tri.1 ≤ bot

end SteadyFlow

section SweepLemmas

variable {α : Type _} [LinearOrderedField α]

lemma sweep_error_of_offense (bot : α)
    (f : α → Except (FlowError α) (α × α × α)) (sel : α × α × α → α) :
    ∀ xs : List α, (∀ x ∈ xs, ∀ e, f x = .error e → e = .dryAt x) →
    (∃ x ∈ xs, dryOffense bot f x) →
    ∃ x ∈ xs, sweep bot f sel xs = .error (.dryAt x) ∧ dryOffense bot f x := by
  intro xs
  induction xs with
  | nil => rintro _ ⟨x, hx, _⟩; simp at hx
  | cons x rest ih =>
    rintro hf ⟨y, hy, hoff⟩
    rcases hfx : f x with e | tri
    · have he : e = .dryAt x := hf x (List.mem_cons_self x rest) e hfx
      refine ⟨x, List.mem_cons_self x rest, ?_, ?_⟩
      · simp [sweep, hfx, he]
      · intro tri htri
        rw [hfx] at htri
        exact absurd htri (by simp)
    · by_cases htri : tri.1 ≤ bot
      · refine ⟨x, List.mem_cons_self x rest, ?_, ?_⟩
        · simp [sweep, hfx, htri]
        · intro tri' htri'
          rw [hfx] at htri'
          cases htri'
          exact htri
      · have hyrest : y ∈ rest := by
          rcases List.mem_cons.mp hy with rfl | h
          · exact absurd (hoff tri hfx) htri
          · exact h
        obtain ⟨z, hz, herr, hoffz⟩ := ih
          (fun w hw e he => hf w (List.mem_cons_of_mem x hw) e he)
          ⟨y, hyrest, hoff⟩
        refine ⟨z, List.mem_cons_of_mem x hz, ?_, hoffz⟩
        simp [sweep, hfx, htri, herr]

lemma sweep_ok_members (bot : α)
    (f : α → Except (FlowError α) (α × α × α)) (sel : α × α × α → α) :
    ∀ xs vs, sweep bot f sel xs = .ok vs →
    ∀ v ∈ vs, ∃ x ∈ xs, ∃ tri, f x = .ok tri ∧ v = sel tri ∧ bot < tri.1 := by
  intro xs
  induction xs with
  | nil =>
    intro vs hvs v hv
    simp [sweep] at hvs
    subst hvs
    simp at hv
  | cons x rest ih =>
    intro vs hvs v hv
    rcases hfx : f x with e | tri
    · simp [sweep, hfx] at hvs
    · by_cases htri : tri.1 ≤ bot
      · simp [sweep, hfx, htri] at hvs
      · rcases hrest : sweep bot f sel rest with e | vs'
        · simp [sweep, hfx, htri, hrest] at hvs
        · have hvs' : vs = sel tri :: vs' := by
            have := hvs
            simp [sweep, hfx, htri, hrest] at this
            exact this.symm
          rw [hvs'] at hv
          rcases List.mem_cons.mp hv with rfl | hv'
          · exact ⟨x, List.mem_cons_self x rest, tri, hfx, rfl, not_le.mp htri⟩
          · obtain ⟨z, hz, tri', h1, h2, h3⟩ := ih vs' hrest v hv'
            exact ⟨z, List.mem_cons_of_mem x hz, tri', h1, h2, h3⟩

end SweepLemmas

section WithXsLemmas

variable {α : Type _} [LinearOrderedField α]

lemma withXs_error (xs : List α) {s : Except (FlowError α) (List α)}
    {e : FlowError α} (h : s = .error e) : withXs xs s = .error e := by
  rw [h]
  rfl

lemma withXs_ok_inv (xs : List α) {s : Except (FlowError α) (List α)}
    {ys hs : List α} (h : withXs xs s = .ok (ys, some hs)) : s = .ok hs := by
  cases s with
  | error e => simp [withXs] at h
  | ok col =>
    simp [withXs] at h
    rw [h.2]

end WithXsLemmas

section Claim7

variable {α : Type _} [LinearOrderedField α]

/-- C7: in every supported boundary-condition branch of the 1D
steady-flow head evaluations (confined and unconfined), the computed
head at each evaluated position is checked against the aquifer bottom:
if some position has head ≤ bottom (or, for the unconfined type-2/type-1
solution, a negative radicand), the evaluation fails with a dry-aquifer
error identifying an offending position; and when the evaluation
succeeds every returned head exceeds the bottom. -/
theorem steady_flow_dry_aquifer_check (sqrt : α → α)
    (aq : Aq1dFiniteConf α) (uaq : Aq1dFiniteUnconf α)
    (bc0 bcL : SteadyBC α) (R : α) (n : ℕ) :
    (bc0.type = 2 → bcL.type = 1 →
      ((∃ x ∈ xvals aq.L n,
          (Steady1dConfFlow.bc_t2_t1 bcL.head bc0.flow aq.L aq.T R x).1 ≤ aq.bot) →
        ∃ x ∈ xvals aq.L n,
          Steady1dConfFlow.h aq bc0 bcL R n = .error (.dryAt x) ∧
          (Steady1dConfFlow.bc_t2_t1 bcL.head bc0.flow aq.L aq.T R x).1 ≤ aq.bot) ∧
      (∀ xs hs, Steady1dConfFlow.h aq bc0 bcL R n = .ok (xs, some hs) →
        ∀ v ∈ hs, aq.bot < v)) ∧
    (bc0.type = 1 → bcL.type = 1 →
      ((∃ x ∈ xvals aq.L n,
          (Steady1dConfFlow.bc_t1_t1 bc0.head bcL.head aq.L aq.T R x).1 ≤ aq.bot) →
        ∃ x ∈ xvals aq.L n,
          Steady1dConfFlow.h aq bc0 bcL R n = .error (.dryAt x) ∧
          (Steady1dConfFlow.bc_t1_t1 bc0.head bcL.head aq.L aq.T R x).1 ≤ aq.bot) ∧
      (∀ xs hs, Steady1dConfFlow.h aq bc0 bcL R n = .ok (xs, some hs) →
        ∀ v ∈ hs, aq.bot < v)) ∧
    (bc0.type = 2 → bcL.type = 1 →
      ((∃ x ∈ xvals uaq.L n, dryOffense uaq.bot
          (fun x => Steady1dUnconfFlow.bc_t2_t1 sqrt bcL.head bc0.flow uaq.L uaq.K R x) x) →
        ∃ x ∈ xvals uaq.L n,
          Steady1dUnconfFlow.h sqrt uaq bc0 bcL R n = .error (.dryAt x) ∧
          dryOffense uaq.bot
            (fun x => Steady1dUnconfFlow.bc_t2_t1 sqrt bcL.head bc0.flow uaq.L uaq.K R x) x) ∧
      (∀ xs hs, Steady1dUnconfFlow.h sqrt uaq bc0 bcL R n = .ok (xs, some hs) →
        ∀ v ∈ hs, uaq.bot < v)) ∧
    (bc0.type = 1 → bcL.type = 1 →
      ((∃ x ∈ xvals uaq.L n,
          (Steady1dUnconfFlow.bc_t1_t1 sqrt bc0.head bcL.head uaq.L uaq.K R x).1 ≤ uaq.bot) →
        ∃ x ∈ xvals uaq.L n,
          Steady1dUnconfFlow.h sqrt uaq bc0 bcL R n = .error (.dryAt x) ∧
          (Steady1dUnconfFlow.bc_t1_t1 sqrt bc0.head bcL.head uaq.L uaq.K R x).1 ≤ uaq.bot) ∧
      (∀ xs hs, Steady1dUnconfFlow.h sqrt uaq bc0 bcL R n = .ok (xs, some hs) →
        ∀ v ∈ hs, uaq.bot < v)) := by
  refine ⟨?_, ?_, ?_, ?_⟩
  · intro h2 h1
    have hcond : bc0.type = 2 ∧ bcL.type = 1 := ⟨h2, h1⟩
    constructor
    · rintro ⟨x0, hx0, hle0⟩
      obtain ⟨x, hx, herr, hoff⟩ := sweep_error_of_offense aq.bot
        (fun x => .ok (Steady1dConfFlow.bc_t2_t1 bcL.head bc0.flow aq.L aq.T R x))
        (fun tri => tri.1) (xvals aq.L n)
        (fun w _ e he => absurd he (by simp))
        ⟨x0, hx0, fun tri htri => by
          cases htri
          exact hle0⟩
      refine ⟨x, hx, ?_, hoff _ rfl⟩
      simp only [Steady1dConfFlow.h]
      rw [if_pos hcond]
      exact withXs_error _ herr
    · intro xs hs hok v hv
      simp only [Steady1dConfFlow.h] at hok
      rw [if_pos hcond] at hok
      obtain ⟨x, _, tri, _, hveq, hbt⟩ := sweep_ok_members aq.bot _ _ _ _
        (withXs_ok_inv _ hok) v hv
      rw [hveq]
      exact hbt
  · intro h0 h1
    have hA : ¬ (bc0.type = 2 ∧ bcL.type = 1) := by
      rintro ⟨hc, _⟩
      rw [h0] at hc
      exact absurd hc (by decide)
    have hcond : bc0.type = 1 ∧ bcL.type = 1 := ⟨h0, h1⟩
    constructor
    · rintro ⟨x0, hx0, hle0⟩
      obtain ⟨x, hx, herr, hoff⟩ := sweep_error_of_offense aq.bot
        (fun x => .ok (Steady1dConfFlow.bc_t1_t1 bc0.head bcL.head aq.L aq.T R x))
        (fun tri => tri.1) (xvals aq.L n)
        (fun w _ e he => absurd he (by simp))
        ⟨x0, hx0, fun tri htri => by
          cases htri
          exact hle0⟩
      refine ⟨x, hx, ?_, hoff _ rfl⟩
      simp only [Steady1dConfFlow.h]
      rw [if_neg hA, if_pos hcond]
      exact withXs_error _ herr
    · intro xs hs hok v hv
      simp only [Steady1dConfFlow.h] at hok
      rw [if_neg hA, if_pos hcond] at hok
      obtain ⟨x, _, tri, _, hveq, hbt⟩ := sweep_ok_members aq.bot _ _ _ _
        (withXs_ok_inv _ hok) v hv
      rw [hveq]
      exact hbt
  · intro h2 h1
    have hcond : bc0.type = 2 ∧ bcL.type = 1 := ⟨h2, h1⟩
    have hf : ∀ w ∈ xvals uaq.L n, ∀ e,
        Steady1dUnconfFlow.bc_t2_t1 sqrt bcL.head bc0.flow uaq.L uaq.K R w =
          .error e → e = .dryAt w := by
      intro w _ e he
      unfold Steady1dUnconfFlow.bc_t2_t1 at he
      split at he
      · injection he with h
        exact h.symm
      · simp at he
    constructor
    · intro hex
      obtain ⟨x, hx, herr, hoff⟩ := sweep_error_of_offense uaq.bot
        (fun x => Steady1dUnconfFlow.bc_t2_t1 sqrt bcL.head bc0.flow uaq.L uaq.K R x)
        (fun tri => tri.1) (xvals uaq.L n) hf hex
      refine ⟨x, hx, ?_, hoff⟩
      simp only [Steady1dUnconfFlow.h]
      rw [if_pos hcond]
      exact withXs_error _ herr
    · intro xs hs hok v hv
      simp only [Steady1dUnconfFlow.h] at hok
      rw [if_pos hcond] at hok
      obtain ⟨x, _, tri, _, hveq, hbt⟩ := sweep_ok_members uaq.bot _ _ _ _
        (withXs_ok_inv _ hok) v hv
      rw [hveq]
      exact hbt
  · intro h0 h1
    have hA : ¬ (bc0.type = 2 ∧ bcL.type = 1) := by
      rintro ⟨hc, _⟩
      rw [h0] at hc
      exact absurd hc (by decide)
    have hcond : bc0.type = 1 ∧ bcL.type = 1 := ⟨h0, h1⟩
    constructor
    · rintro ⟨x0, hx0, hle0⟩
      obtain ⟨x, hx, herr, hoff⟩ := sweep_error_of_offense uaq.bot
        (fun x => .ok (Steady1dUnconfFlow.bc_t1_t1 sqrt bc0.head bcL.head uaq.L uaq.K R x))
        (fun tri => tri.1) (xvals uaq.L n)
        (fun w _ e he => absurd he (by simp))
        ⟨x0, hx0, fun tri htri => by
          cases htri
          exact hle0⟩
      refine ⟨x, hx, ?_, hoff _ rfl⟩
      simp only [Steady1dUnconfFlow.h]
      rw [if_neg hA, if_pos hcond]
      exact withXs_error _ herr
    · intro xs hs hok v hv
      simp only [Steady1dUnconfFlow.h] at hok
      rw [if_neg hA, if_pos hcond] at hok
      obtain ⟨x, _, tri, _, hveq, hbt⟩ := sweep_ok_members uaq.bot _ _ _ _
        (withXs_ok_inv _ hok) v hv
      rw [hveq]
      exact hbt

/-- C7 witness: for the default confined setup (type 2 at x=0, type 1
at x=L, heads 10, bottom 0, n=2) the head evaluation succeeds and every
returned head exceeds the aquifer bottom. -/
theorem steady_flow_dry_aquifer_check_witness :
    ∀ v ∈ ([10, 10] : List ℚ), (0 : ℚ) < v :=
  ((steady_flow_dry_aquifer_check (fun x => x)
    (⟨1, 1/10000, 10, 1000, 0⟩ : Aq1dFiniteConf ℚ)
    (⟨1, 1/10, 10, 1000, 0⟩ : Aq1dFiniteUnconf ℚ)
    ⟨2, 10, 0, 0⟩ ⟨1, 10, 0, 0⟩ 0 2).1 rfl rfl).2
    [0, 1000] [10, 10]
    (by norm_num [Steady1dConfFlow.h, xvals, List.range_succ, sweep,
      Steady1dConfFlow.bc_t2_t1, withXs, Aq1dFiniteConf.T])

end Claim7

section Claim6

variable {α : Type _} [LinearOrderedField α]

/-- C6 counterexample: with type 1 at x=0 and type 2 at x=L — a
combination outside the two supported ones — the confined head
evaluation raises no error at all: it returns the x column with no head
column. -/
theorem steady_conf_h_unsupported_combo_no_error :
    Steady1dConfFlow.h (⟨1, 1, 10, 1, 0⟩ : Aq1dFiniteConf ℚ)
      ⟨1, 10, 0, 0⟩ ⟨2, 10, 0, 0⟩ 0 2 = .ok ([0, 1], none) := by
  norm_num [Steady1dConfFlow.h, xvals, List.range_succ]

/-- C6 amended: the h/q/h_grad evaluations of both 1D steady-flow
classes branch only on the two supported combinations (type 2 at x=0
with type 1 at x=L, or type 1 at both ends); for every other
combination they silently return the x column with no result column and
raise no error — the 'at least one type 1' check lives only in the
separate types property, which these methods never consult. -/
theorem steady_flow_unsupported_combo_silently_skips
    (sqrt : α → α) (aq : Aq1dFiniteConf α) (uaq : Aq1dFiniteUnconf α)
    (bc0 bcL : SteadyBC α) (R : α) (n : ℕ)
    (hcombo : ¬ ((bc0.type = 2 ∧ bcL.type = 1) ∨
      (bc0.type = 1 ∧ bcL.type = 1))) :
    Steady1dConfFlow.h aq bc0 bcL R n = .ok (xvals aq.L n, none) ∧
    Steady1dConfFlow.q aq bc0 bcL R n = .ok (xvals aq.L n, none) ∧
    Steady1dConfFlow.h_grad aq bc0 bcL R n = .ok (xvals aq.L n, none) ∧
    Steady1dUnconfFlow.h sqrt uaq bc0 bcL R n = .ok (xvals uaq.L n, none) ∧
    Steady1dUnconfFlow.q sqrt uaq bc0 bcL R n = .ok (xvals uaq.L n, none) ∧
    Steady1dUnconfFlow.h_grad sqrt uaq bc0 bcL R n =
      .ok (xvals uaq.L n, none) ∧
    (¬ (bc0.type = 1 ∨ bcL.type = 1) →
      failed (Steady1dConfFlow.types bc0 bcL)) := by
  obtain ⟨hA, hB⟩ := not_or.mp hcombo
  refine ⟨?_, ?_, ?_, ?_, ?_, ?_, ?_⟩
  · simp only [Steady1dConfFlow.h]
    rw [if_neg hA, if_neg hB]
  · simp only [Steady1dConfFlow.q]
    rw [if_neg hA, if_neg hB]
  · simp only [Steady1dConfFlow.h_grad]
    rw [if_neg hA, if_neg hB]
  · simp only [Steady1dUnconfFlow.h]
    rw [if_neg hA, if_neg hB]
  · simp only [Steady1dUnconfFlow.q]
    rw [if_neg hA, if_neg hB]
  · simp only [Steady1dUnconfFlow.h_grad]
    rw [if_neg hA, if_neg hB]
  · intro h1
    simp [Steady1dConfFlow.types, h1, failed]

/-- C6 witness: the amended theorem applied at the concrete unsupported
combination type 1 at x=0 with type 2 at x=L over the rationals. -/
theorem steady_flow_unsupported_combo_silently_skips_witness :
    Steady1dConfFlow.h (⟨1, 1, 10, 1, 0⟩ : Aq1dFiniteConf ℚ)
      ⟨1, 10, 0, 0⟩ ⟨2, 10, 0, 0⟩ 0 2 =
      .ok (xvals (1 : ℚ) 2, none) ∧
    Steady1dUnconfFlow.h (fun x => x) (⟨1, 1/10, 10, 1, 0⟩ : Aq1dFiniteUnconf ℚ)
      ⟨1, 10, 0, 0⟩ ⟨2, 10, 0, 0⟩ 0 2 =
      .ok (xvals (1 : ℚ) 2, none) := by
  have h := steady_flow_unsupported_combo_silently_skips (fun x : ℚ => x)
    (⟨1, 1, 10, 1, 0⟩ : Aq1dFiniteConf ℚ) (⟨1, 1/10, 10, 1, 0⟩ : Aq1dFiniteUnconf ℚ)
    ⟨1, 10, 0, 0⟩ ⟨2, 10, 0, 0⟩ 0 2 (by decide)
  exact ⟨h.1, h.2.2.2.1⟩

end Claim6

section Solvers

variable {α : Type _} [LinearOrderedField α]

/-- Outcome of a complete run of a mine_flow.py solver loop: the
converged value of the loop variable on normal exit, the 'More than
1000 iterations' exception, or Python's NameError raised by `return r3`
when the loop body never executed and r3 was never assigned. -/
inductive SolveResult (α : Type _) where
  | converged (v : α)
  | tooMany
  | nameError
  deriving DecidableEq

/-- The fixed-point while loop of MineSteadyRadUnconfQ.ri
(pygaf/solutions/mine_flow.py lines 65-82) with the update r2 = f(r1)
abstracted into f and the unbounded while loop modelled by fuel (none
means the loop is still running after that many unfoldings; the C1
theorem shows fuel 1002 always completes).  State: current r1, current
residual, the last computed r2 (none before the first iteration, so a
normal exit without any iteration is the NameError of `return r2`), and
the iteration count; err = 0.01 = 1/100.  Loop body order as in source:
increment count, compute r2 and the residual, shift r1, then raise if
count exceeded 1000. -/
def fpLoop (f : α → α) : ℕ → α → α → Option α → ℕ → Option (SolveResult α)
  | 0, _, _, _, _ => none
  | fuel + 1, r1, res, r2prev, count =>
    if ¬ (|res| > 1 / 100) then
      match r2prev with
      | some r2 => some (.converged r2)
      | none => some .nameError
    else if count + 1 > 1000 then some .tooMany
    else fpLoop f fuel (f r1) (f r1 - r1) (some (f r1)) (count + 1)

/-- MineSteadyRadUnconfQ.ri (mine_flow.py lines 65-82): iterate
r2 = sqrt(K*(B² - hp²)/(R*log(r1/rp))) from the initial estimate
r1 = rp*10 with initial residual err + 1; numpy.sqrt and numpy.log are
passed as parameters. -/
def MineSteadyRadUnconfQ.ri (sqrt log : α → α) (K B hp R rp : α)
    (fuel : ℕ) : Option (SolveResult α) :=
  fpLoop (fun r1 => sqrt (K * (B ^ 2 - hp ^ 2) / (R * log (r1 / rp))))
    fuel (rp * 10) (1 / 100 + 1) none 0

/-- The bisection while loop shared by MineSteadyRadLeakyDD.ri
(mine_flow.py lines 524-550) and MineTransRadConfDD.dp_targ_time (lines
768-790): the midpoint r3 = r1 + (r2 - r1)/2 replaces the lower bracket
end when the predicate g holds there, else the upper end; the residual
is the bracket width; same count cap and err as fpLoop; `return r3` on
a loop that never ran is the NameError case. -/
def bisectLoop (g : α → Bool) :
    ℕ → α → α → α → Option α → ℕ → Option (SolveResult α)
  | 0, _, _, _, _, _ => none
  | fuel + 1, r1, r2, res, mid, count =>
    if ¬ (|res| > 1 / 100) then
      match mid with
      | some r3 => some (.converged r3)
      | none => some .nameError
    else if count + 1 > 1000 then some .tooMany
    else bisectLoop g fuel
      (if g (r1 + (r2 - r1) / 2) then r1 + (r2 - r1) / 2 else r1)
      (if g (r1 + (r2 - r1) / 2) then r2 else r1 + (r2 - r1) / 2)
      ((if g (r1 + (r2 - r1) / 2) then r2 else r1 + (r2 - r1) / 2) -
        (if g (r1 + (r2 - r1) / 2) then r1 + (r2 - r1) / 2 else r1))
      (some (r1 + (r2 - r1) / 2)) (count + 1)

/-- MineSteadyRadLeakyDD.ri (mine_flow.py lines 524-550): bisection on
[rp, rp*1e6] driven by k0(r3/lfac) > targ with
targ = 2*pi*T*0.001*h0/qp; scipy.special.k0 and numpy.pi are passed as
parameters, and T and lfac (derived from the Aq2dLeaky aquifer object,
whose class is not among the sources) enter as plain parameters. -/
def MineSteadyRadLeakyDD.ri (k0 : α → α) (pi T lfac h0 qp rp : α)
    (fuel : ℕ) : Option (SolveResult α) :=
  bisectLoop (fun r3 => decide (k0 (r3 / lfac) > 2 * pi * T * (1 / 1000) * h0 / qp))
    fuel rp (rp * 1000000) (rp * 1000000 - rp) none 0

/-- MineTransRadConfDD.drt (mine_flow.py lines 744-756): Theis-type
drawdown at radius r and time t; scipy.special.expn(1, ·) is the
parameter expn1. -/
def MineTransRadConfDD.drt (expn1 : α → α) (pi S T qp : α) (r t : α) : α :=
  expn1 (r ^ 2 * S / (4 * T * t)) * qp / (4 * pi * T)

/-- MineTransRadConfDD.dp_targ_time (mine_flow.py lines 768-790):
bisection on [1, 1e10] moving the lower end while the drawdown at the
pit radius is below the target. -/
def MineTransRadConfDD.dp_targ_time (expn1 : α → α)
    (pi S T qp rp dp_targ : α) (fuel : ℕ) : Option (SolveResult α) :=
  bisectLoop
    (fun t3 => decide (MineTransRadConfDD.drt expn1 pi S T qp rp t3 < dp_targ))
    fuel 1 10000000000 (10000000000 - 1) none 0

end Solvers

section SolverLemmas

variable {α : Type _} [LinearOrderedField α]

lemma fpLoop_total (f : α → α) :
    ∀ fuel count, count ≤ 1000 → 1002 ≤ fuel + count → ∀ r1 res r2,
    ∃ out, fpLoop f fuel r1 res (some r2) count = some out ∧
      ((∃ v, out = .converged v) ∨ out = .tooMany) := by
  intro fuel
  induction fuel with
  | zero => intro count hc hf; omega
  | succ fu ih =>
    intro count hc hf r1 res r2
    by_cases h : ¬ (|res| > 1 / 100)
    · refine ⟨.converged r2, ?_, Or.inl ⟨r2, rfl⟩⟩
      simp only [fpLoop]
      rw [if_pos h]
    · by_cases hcnt : count + 1 > 1000
      · refine ⟨.tooMany, ?_, Or.inr rfl⟩
        simp only [fpLoop]
        rw [if_neg h, if_pos hcnt]
      · obtain ⟨out, hout, hcase⟩ := ih (count + 1) (by omega) (by omega)
          (f r1) (f r1 - r1) (f r1)
        refine ⟨out, ?_, hcase⟩
        simp only [fpLoop]
        rw [if_neg h, if_neg hcnt]
        exact hout

lemma fpLoop_fuel_indep (f : α → α) :
    ∀ fuel fuel2 count, count ≤ 1000 → 1002 ≤ fuel + count →
    1002 ≤ fuel2 + count → ∀ r1 res r2,
    fpLoop f fuel r1 res (some r2) count =
      fpLoop f fuel2 r1 res (some r2) count := by
  intro fuel
  induction fuel with
  | zero => intro fuel2 count hc hf; omega
  | succ fu ih =>
    intro fuel2 count hc hf hf2 r1 res r2
    obtain ⟨fu2, rfl⟩ : ∃ k, fuel2 = k + 1 := ⟨fuel2 - 1, by omega⟩
    by_cases h : ¬ (|res| > 1 / 100)
    · simp only [fpLoop]
      rw [if_pos h, if_pos h]
    · by_cases hcnt : count + 1 > 1000
      · simp only [fpLoop]
        rw [if_neg h, if_pos hcnt, if_neg h, if_pos hcnt]
      · simp only [fpLoop]
        rw [if_neg h, if_neg hcnt, if_neg h, if_neg hcnt]
        exact ih fu2 (count + 1) (by omega) (by omega) (by omega) _ _ _

lemma fpLoop_entry (f : α → α) (r0 : α) :
    ∀ fuel, 1002 ≤ fuel →
    fpLoop f fuel r0 (1 / 100 + 1) none 0 =
      fpLoop f 1001 (f r0) (f r0 - r0) (some (f r0)) 1 := by
  intro fuel hf
  obtain ⟨fu, rfl⟩ : ∃ k, fuel = k + 1 := ⟨fuel - 1, by omega⟩
  have hgt : |(1 / 100 : α) + 1| > 1 / 100 := by
    rw [abs_of_pos (by positivity)]
    linarith
  conv_lhs => simp only [fpLoop]
  rw [if_neg (not_not_intro hgt), if_neg (by norm_num)]
  exact fpLoop_fuel_indep f fu 1001 1 (by norm_num) (by omega) (by norm_num)
    _ _ _

lemma bisectLoop_total (g : α → Bool) :
    ∀ fuel count, count ≤ 1000 → 1002 ≤ fuel + count → ∀ r1 r2 res m,
    ∃ out, bisectLoop g fuel r1 r2 res (some m) count = some out ∧
      ((∃ v, out = .converged v) ∨ out = .tooMany) := by
  intro fuel
  induction fuel with
  | zero => intro count hc hf; omega
  | succ fu ih =>
    intro count hc hf r1 r2 res m
    by_cases h : ¬ (|res| > 1 / 100)
    · refine ⟨.converged m, ?_, Or.inl ⟨m, rfl⟩⟩
      simp only [bisectLoop]
      rw [if_pos h]
    · by_cases hcnt : count + 1 > 1000
      · refine ⟨.tooMany, ?_, Or.inr rfl⟩
        simp only [bisectLoop]
        rw [if_neg h, if_pos hcnt]
      · obtain ⟨out, hout, hcase⟩ := ih (count + 1) (by omega) (by omega)
          (if g (r1 + (r2 - r1) / 2) then r1 + (r2 - r1) / 2 else r1)
          (if g (r1 + (r2 - r1) / 2) then r2 else r1 + (r2 - r1) / 2)
          ((if g (r1 + (r2 - r1) / 2) then r2 else r1 + (r2 - r1) / 2) -
            (if g (r1 + (r2 - r1) / 2) then r1 + (r2 - r1) / 2 else r1))
          (r1 + (r2 - r1) / 2)
        refine ⟨out, ?_, hcase⟩
        simp only [bisectLoop]
        rw [if_neg h, if_neg hcnt]
        exact hout

lemma bisectLoop_fuel_indep (g : α → Bool) :
    ∀ fuel fuel2 count, count ≤ 1000 → 1002 ≤ fuel + count →
    1002 ≤ fuel2 + count → ∀ r1 r2 res m,
    bisectLoop g fuel r1 r2 res (some m) count =
      bisectLoop g fuel2 r1 r2 res (some m) count := by
  intro fuel
  induction fuel with
  | zero => intro fuel2 count hc hf; omega
  | succ fu ih =>
    intro fuel2 count hc hf hf2 r1 r2 res m
    obtain ⟨fu2, rfl⟩ : ∃ k, fuel2 = k + 1 := ⟨fuel2 - 1, by omega⟩
    by_cases h : ¬ (|res| > 1 / 100)
    · simp only [bisectLoop]
      rw [if_pos h, if_pos h]
    · by_cases hcnt : count + 1 > 1000
      · simp only [bisectLoop]
        rw [if_neg h, if_pos hcnt, if_neg h, if_pos hcnt]
      · simp only [bisectLoop]
        rw [if_neg h, if_neg hcnt, if_neg h, if_neg hcnt]
        exact ih fu2 (count + 1) (by omega) (by omega) (by omega) _ _ _ _

lemma bisectLoop_entry (g : α → Bool) (a b res0 : α)
    (hgt : |res0| > 1 / 100) :
    ∀ fuel, 1002 ≤ fuel →
    bisectLoop g fuel a b res0 none 0 =
      bisectLoop g 1001
        (if g (a + (b - a) / 2) then a + (b - a) / 2 else a)
        (if g (a + (b - a) / 2) then b else a + (b - a) / 2)
        ((if g (a + (b - a) / 2) then b else a + (b - a) / 2) -
          (if g (a + (b - a) / 2) then a + (b - a) / 2 else a))
        (some (a + (b - a) / 2)) 1 := by
  intro fuel hf
  obtain ⟨fu, rfl⟩ : ∃ k, fuel = k + 1 := ⟨fuel - 1, by omega⟩
  conv_lhs => simp only [bisectLoop]
  rw [if_neg (not_not_intro hgt), if_neg (by norm_num)]
  exact bisectLoop_fuel_indep g fu 1001 1 (by norm_num) (by omega)
    (by norm_num) _ _ _ _

lemma bisectLoop_never_entered (g : α → Bool) (a b res0 : α)
    (hle : ¬ (|res0| > 1 / 100)) :
    ∀ fuel, 1 ≤ fuel →
    bisectLoop g fuel a b res0 none 0 = some .nameError := by
  intro fuel hf
  obtain ⟨fu, rfl⟩ : ∃ k, fuel = k + 1 := ⟨fuel - 1, by omega⟩
  simp only [bisectLoop]
  rw [if_pos hle]

end SolverLemmas

section Claim1

variable {α : Type _} [LinearOrderedField α]

/-- C1 counterexample: a valid mine-pit radius rp = 1e-9 makes the
initial bracket width of MineSteadyRadLeakyDD.ri equal to
rp·(10⁶ - 1) ≈ 1e-3 ≤ 0.01, so the while loop never runs and the access
ends in the NameError of `return r3` — neither a converged value nor the
'too many iterations' error, refuting the claimed dichotomy. -/
theorem mine_leaky_ri_tiny_rp_name_error :
    MineSteadyRadLeakyDD.ri (fun _ => (0 : ℚ)) 3 1 1 1 1 (1 / 1000000000)
      1002 = some SolveResult.nameError ∧
    (∀ v : ℚ, (SolveResult.nameError : SolveResult ℚ) ≠ .converged v) ∧
    (SolveResult.nameError : SolveResult ℚ) ≠ .tooMany := by
  refine ⟨?_, fun v => by simp, by simp⟩
  unfold MineSteadyRadLeakyDD.ri
  apply bisectLoop_never_entered _ _ _ _ ?_ 1002 (by norm_num)
  rw [not_lt, abs_of_nonneg (by norm_num)]
  norm_num

/-- C1 amended: every access of the three iterative inverse solvers
terminates after at most 1001 loop iterations (the result is already
fixed with fuel 1002 and unchanged by any additional fuel).  The
fixed-point ri and the time-target bisection always end in either a
converged value or the 'too many iterations' error; the leaky-aquifer
bisection ri does too whenever its initial bracket width
|rp·10⁶ - rp| exceeds the 0.01 tolerance, while for smaller rp the loop
body never runs and the access ends in a NameError instead.  No solver
loops forever. -/
theorem solver_loops_terminate
    (sqrt log k0 expn1 : α → α) (K B hp R rp pi S T lfac h0 qp dp_targ : α) :
    (∃ out, (∀ fuel, 1002 ≤ fuel →
        MineSteadyRadUnconfQ.ri sqrt log K B hp R rp fuel = some out) ∧
      ((∃ v, out = .converged v) ∨ out = .tooMany)) ∧
    (∃ out, (∀ fuel, 1002 ≤ fuel →
        MineTransRadConfDD.dp_targ_time expn1 pi S T qp rp dp_targ fuel =
          some out) ∧
      ((∃ v, out = .converged v) ∨ out = .tooMany)) ∧
    (1 / 100 < |rp * 1000000 - rp| →
      ∃ out, (∀ fuel, 1002 ≤ fuel →
        MineSteadyRadLeakyDD.ri k0 pi T lfac h0 qp rp fuel = some out) ∧
      ((∃ v, out = .converged v) ∨ out = .tooMany)) ∧
    (¬ (1 / 100 < |rp * 1000000 - rp|) →
      ∀ fuel, 1 ≤ fuel →
        MineSteadyRadLeakyDD.ri k0 pi T lfac h0 qp rp fuel =
          some .nameError) := by
  refine ⟨?_, ?_, ?_, ?_⟩
  · obtain ⟨out, hout, hcase⟩ := fpLoop_total
      (fun r1 => sqrt (K * (B ^ 2 - hp ^ 2) / (R * log (r1 / rp)))) 1001 1
      (by norm_num) (by norm_num)
      (sqrt (K * (B ^ 2 - hp ^ 2) / (R * log (rp * 10 / rp))))
      (sqrt (K * (B ^ 2 - hp ^ 2) / (R * log (rp * 10 / rp))) - rp * 10)
      (sqrt (K * (B ^ 2 - hp ^ 2) / (R * log (rp * 10 / rp))))
    refine ⟨out, fun fuel hf => ?_, hcase⟩
    unfold MineSteadyRadUnconfQ.ri
    rw [fpLoop_entry _ _ fuel hf]
    exact hout
  · have hgt : |(10000000000 : α) - 1| > 1 / 100 := by
      rw [abs_of_pos (by norm_num)]
      norm_num
    obtain ⟨out, hout, hcase⟩ := bisectLoop_total
      (fun t3 => decide (MineTransRadConfDD.drt expn1 pi S T qp rp t3 < dp_targ))
      1001 1 (by norm_num) (by norm_num) _ _ _
      ((1 : α) + (10000000000 - 1) / 2)
    refine ⟨out, fun fuel hf => ?_, hcase⟩
    unfold MineTransRadConfDD.dp_targ_time
    rw [bisectLoop_entry _ _ _ _ hgt fuel hf]
    exact hout
  · intro hgt
    obtain ⟨out, hout, hcase⟩ := bisectLoop_total
      (fun r3 => decide (k0 (r3 / lfac) > 2 * pi * T * (1 / 1000) * h0 / qp))
      1001 1 (by norm_num) (by norm_num) _ _ _
      (rp + (rp * 1000000 - rp) / 2)
    refine ⟨out, fun fuel hf => ?_, hcase⟩
    simp only [MineSteadyRadLeakyDD.ri]
    rw [bisectLoop_entry _ _ _ _ hgt fuel hf]
    exact hout
  · intro hle fuel hf
    simp only [MineSteadyRadLeakyDD.ri]
    exact bisectLoop_never_entered _ _ _ _ hle fuel hf

/-- C1 witness: the termination theorem applied at concrete rational
parameters, with the bracket-width hypothesis discharged at rp = 1. -/
theorem solver_loops_terminate_witness :
    (∃ out, (∀ fuel, 1002 ≤ fuel →
        MineSteadyRadUnconfQ.ri (fun x => x) (fun x => x)
          (1 : ℚ) 100 90 (1/10000) 100 fuel = some out) ∧
      ((∃ v, out = .converged v) ∨ out = .tooMany)) ∧
    (∃ out, (∀ fuel, 1002 ≤ fuel →
        MineSteadyRadLeakyDD.ri (fun _ => (0 : ℚ)) 3 1 1 120 1000 1 fuel =
          some out) ∧
      ((∃ v, out = .converged v) ∨ out = .tooMany)) := by
  have h := solver_loops_terminate (fun x : ℚ => x) (fun x => x)
    (fun _ => 0) (fun _ => 0) 1 100 90 (1/10000) 100 3 1 1 1 120 1000 10
  have h2 := solver_loops_terminate (fun x : ℚ => x) (fun x => x)
    (fun _ => 0) (fun _ => 0) 1 100 90 (1/10000) 1 3 1 1 1 120 1000 10
  refine ⟨h.1, h2.2.2.1 ?_⟩
  rw [abs_of_pos (by norm_num)]
  norm_num

end Claim1

end PyGAF
